import Mathlib

/-!
# Student Mark Tracker backend: request authorisation and resource handlers

A shallow embedding of `server.js`.  Every route handler is a pure function of
the request (path parameter, query, body, decoded token claims) and of the
collections it reads; a handler that writes returns the new collection next to
the response.  The collaborators the server only calls (the token library, the
password hashing library, the regular-expression engine, the ObjectId cast of
the document mapper, the database driver's treatment of `undefined` filter
values) are the fields of `Lib`; the general theorems hold for every `Lib`,
the evaluations on sample requests use `demoLib`.

Conventions
* A field read off `req.body`, `req.query` or `req.headers` is an `Option`:
  `none` is JavaScript `undefined`.  A field that is present has the type its
  schema path casts to.
* `req.user.id` is the `_id` of a user, as every token the server signs
  carries it; a path parameter `:id` is a string that the mapper casts.
* Scores are integers (`Int`); `timestamps` and `__v` are not modelled.
* `res.status(s).json(b)` is the value `Response.mk s b`; `res.json(b)` has
  status 200.
-/

namespace MarkTracker

/-! ## Documents -/

/-- A database ObjectId, identified with its canonical lower-case hex string. -/
structure ObjectId where
  hex : String
deriving DecidableEq, Repr

/-- The payload signed by `POST /api/auth/login` and attached to `req.user` by
`authMiddleware`.  `id` is the user `_id`; `rollNumber` is dropped from the
payload when the user has none. -/
structure Claims where
  id : ObjectId
  role : String
  username : String
  fullName : String
  rollNumber : Option String
deriving DecidableEq, Repr

/-- A document of `userSchema`. -/
structure User where
  _id : ObjectId
  username : String
  password : String
  role : String
  fullName : String
  rollNumber : Option String
deriving DecidableEq, Repr

/-- A document of `studentSchema` (one mark record).  `teacherId` is not
`required` in the schema, hence optional. -/
structure MarkRecord where
  _id : ObjectId
  rollNumber : String
  studentName : String
  marks : Int
  subject : String
  teacherId : Option ObjectId
deriving DecidableEq, Repr

/-- One row produced by the `$project` stage of the admin/teacher listing. -/
structure MarkRow where
  _id : ObjectId
  rollNumber : String
  marks : Int
  subject : String
  teacherId : Option ObjectId
  studentName : Option String
deriving DecidableEq, Repr

/-! ## Responses -/

/-- The JSON bodies the handlers send. -/
inductive Body where
  | message (msg : String)
  | mark (m : MarkRecord)
  | marks (ms : List MarkRecord)
  | rows (rs : List MarkRow)
  | session (token : String) (role : String) (username : String) (fullName : String)
      (rollNumber : Option String)
  | undefined
deriving DecidableEq, Repr

/-- An HTTP response: `res.status(status).json(body)`. -/
structure Response where
  status : Nat
  body : Body
deriving DecidableEq, Repr

/-! ## External collaborators -/

/-- The libraries the server calls.
* `jwtVerify token` is `jwt.verify(token, JWT_SECRET)`: `none` when it throws.
* `jwtSign` is `jwt.sign(payload, JWT_SECRET, expiresIn "1d")`.
* `bcryptCompare password hash` is `bcrypt.compare`: `none` when it rejects.
* `regExp source` is `new RegExp(source, "i")`: `none` when the constructor
  throws a SyntaxError, otherwise the `$regex` test of a string.
* `castObjectId` is the ObjectId cast applied to a path parameter: `none` is a
  CastError.
* `undefinedMatchesAll` tells whether the driver drops a filter key whose value
  is `undefined` (so the key matches every document) or sends it as `null`. -/
structure Lib where
  jwtVerify : Option String → Option Claims
  jwtSign : Claims → String
  bcryptCompare : Option String → String → Option Bool
  regExp : String → Option (String → Bool)
  castObjectId : String → Option ObjectId
  undefinedMatchesAll : Bool

/-! ## String helpers of the JavaScript runtime -/

/-- ECMAScript WhiteSpace and LineTerminator code points, the ones
`String.prototype.trim` removes. -/
def isJsSpace (c : Char) : Bool :=
  let n := c.toNat
  (9 ≤ n && n ≤ 13) || n == 32 || n == 160 || n == 5760 || (8192 ≤ n && n ≤ 8202) ||
    n == 8232 || n == 8233 || n == 8239 || n == 8287 || n == 12288 || n == 65279

/-- JavaScript `trim`, the setter of a schema path declared `trim: true`. -/
def jsTrim (s : String) : String :=
  ⟨((s.data.dropWhile isJsSpace).reverse.dropWhile isJsSpace).reverse⟩

/-- Pieces of `cs.split(" ")`, the piece being read in `cur` (reversed). -/
def splitSpaceAux : List Char → List Char → List (List Char)
  | [], cur => [cur.reverse]
  | c :: cs, cur =>
    if c = ' ' then cur.reverse :: splitSpaceAux cs [] else splitSpaceAux cs (c :: cur)

/-- JavaScript `s.split(" ")`. -/
def splitSpace (s : String) : List String :=
  (splitSpaceAux s.data []).map String.mk

/-! ## Authentication middleware -/

/-- The argument of `authMiddleware`: a single role string or an array of
roles (the default is the empty array). -/
inductive RolesArg where
  | one (role : String)
  | many (roles : List String)
deriving DecidableEq, Repr

/-- The line `if (typeof roles === "string") roles = [roles]`. -/
def RolesArg.toList : RolesArg → List String
  | .one r => [r]
  | .many rs => rs

/-- What the middleware does with a request: it sends a response and stops, or
it sets `req.user` and calls `next()` (one call). -/
inductive AuthOutcome where
  | respond (status : Nat) (message : String)
  | next (user : Claims)
deriving DecidableEq, Repr

/-- The function `authMiddleware(roles)` applied to a request whose
`authorization` header is `authorization`. -/
def authMiddleware (lib : Lib) (roles : RolesArg) (authorization : Option String) :
    AuthOutcome :=
  let roles := roles.toList
  match authorization with
  | none => .respond 401 "Authentication required"
  | some authHeader =>
    if authHeader = "" then .respond 401 "Authentication required"
    else
      let token := (splitSpace authHeader)[1]?
      match lib.jwtVerify token with
      | some decoded =>
        if roles.length ≠ 0 ∧ ¬ decoded.role ∈ roles then
          .respond 403 "Forbidden: insufficient rights"
        else .next decoded
      | none => .respond 401 "Invalid token"

/-- The number of calls of the downstream handler in an outcome. -/
def AuthOutcome.nextCalls : AuthOutcome → Nat
  | .respond _ _ => 0
  | .next _ => 1

/-- The outcome table of the middleware as the specification words it: the
first branch is taken when the header is absent. -/
def authOutcomeSpec (lib : Lib) (allowed : List String) (authorization : Option String) :
    AuthOutcome :=
  match authorization with
  | none => .respond 401 "Authentication required"
  | some authHeader =>
    match lib.jwtVerify ((splitSpace authHeader)[1]?) with
    | none => .respond 401 "Invalid token"
    | some claims =>
      if allowed ≠ [] ∧ ¬ claims.role ∈ allowed then
        .respond 403 "Forbidden: insufficient rights"
      else .next claims

/-! ## Query filters -/

/-- The equality condition `path: v` of a query filter, evaluated on a document
whose value at the path is `field` (`none` when the document has no value
there).  A filter value `undefined` is either dropped by the driver, and then
constrains nothing, or sent as `null`, which matches a missing value. -/
def Lib.eqCond (lib : Lib) (v : Option String) (field : Option String) : Bool :=
  match v with
  | some s => field == some s
  | none => lib.undefinedMatchesAll || field.isNone

/-- The `searchFilter` object of `GET /api/studentmarks` as a test on mark
records.  It is the empty filter when `search` is falsy; `none` when
`new RegExp(search, "i")` throws. -/
def searchFilter (lib : Lib) (search : Option String) : Option (MarkRecord → Bool) :=
  match search with
  | none => some (fun _ => true)
  | some s =>
    if s = "" then some (fun _ => true)
    else
      match lib.regExp s with
      | none => none
      | some regex =>
        some (fun m => regex m.rollNumber || regex m.studentName || regex m.subject)

/-! ## GET /api/studentmarks -/

/-- The `$lookup` stage followed by `$unwind` with
`preserveNullAndEmptyArrays`: a mark is paired with every user that has its roll
number, and kept once with no user when there is none. -/
def lookupUnwind (users : List User) (m : MarkRecord) : List (MarkRecord × Option User) :=
  match users.filter (fun u => u.rollNumber == some m.rollNumber) with
  | [] => [(m, none)]
  | u :: us => (u :: us).map (fun v => (m, some v))

/-- The `$project` stage: `studentName` is `$studentInfo.fullName`. -/
def projectRow (p : MarkRecord × Option User) : MarkRow :=
  { _id := p.1._id, rollNumber := p.1.rollNumber, marks := p.1.marks, subject := p.1.subject,
    teacherId := p.1.teacherId, studentName := p.2.map (fun u => u.fullName) }

/-- The pipeline `Student.aggregate([$match, $lookup, $unwind, $project])`. -/
def aggregateMarks (users : List User) (marks : List MarkRecord)
    (finalMatchFilter : MarkRecord → Bool) : List MarkRow :=
  ((marks.filter finalMatchFilter).flatMap (lookupUnwind users)).map projectRow

/-- The `ownershipFilter` of the admin/teacher branch. -/
def ownershipFilter (user : Claims) : MarkRecord → Bool :=
  if user.role = "admin" then fun _ => true
  else fun m => m.teacherId == some user.id

/-- The handler of `GET /api/studentmarks`, after the middleware has set
`req.user = user`; `search` is `req.query.search`. -/
def getStudentMarks (lib : Lib) (users : List User) (marks : List MarkRecord)
    (user : Claims) (search : Option String) : Response :=
  match searchFilter lib search with
  | none => ⟨500, .message "Server Error"⟩
  | some sf =>
    if user.role = "admin" ∨ user.role = "teacher" then
      ⟨200, .rows (aggregateMarks users marks (fun m => ownershipFilter user m && sf m))⟩
    else if user.role = "student" then
      ⟨200, .marks (marks.filter
        (fun m => lib.eqCond (user.rollNumber.map jsTrim) (some m.rollNumber) && sf m))⟩
    else ⟨200, .undefined⟩

/-! ## POST /api/studentmarks -/

/-- The fields the create handler reads off `req.body`. -/
structure MarkBody where
  rollNumber : Option String
  marks : Option Int
  subject : Option String
deriving DecidableEq, Repr

/-- The failure of one schema path in document validation. -/
inductive PathError where
  | required (path : String)
  | min (path : String) (value : Int) (bound : Int)
  | max (path : String) (value : Int) (bound : Int)
deriving DecidableEq, Repr

/-- The text of one validator failure (the document mapper's default
templates), preceded by its path. -/
def PathError.text : PathError → String
  | .required p => p ++ ": Path `" ++ p ++ "` is required."
  | .min p v b =>
    p ++ ": Path `" ++ p ++ "` (" ++ toString v ++ ") is less than minimum allowed value ("
      ++ toString b ++ ")."
  | .max p v b =>
    p ++ ": Path `" ++ p ++ "` (" ++ toString v ++ ") is more than maximum allowed value ("
      ++ toString b ++ ")."

/-- The `message` of the ValidationError of a `Student` document: the failing
paths, here in schema order. -/
def validationMessage (errs : List PathError) : String :=
  "Student validation failed: " ++ ", ".intercalate (errs.map PathError.text)

/-- The `required` validator of a string path: present and not empty. -/
def requiredString (path : String) (v : Option String) : List PathError :=
  match v with
  | none => [.required path]
  | some s => if s = "" then [.required path] else []

/-- The validators of the `marks` path: `required`, `min: 0`, `max: 100`. -/
def validateMarks (v : Option Int) : List PathError :=
  match v with
  | none => [.required "marks"]
  | some n =>
    if n < 0 then [.min "marks" n 0] else if 100 < n then [.max "marks" n 100] else []

/-- The validator failures of a new `Student` document: the `trim` setters
are applied to `rollNumber` and `studentName`, then the validators of
`studentSchema` run. -/
def validationErrors (rollNumber : Option String) (studentName : String)
    (marks : Option Int) (subject : Option String) : List PathError :=
  requiredString "rollNumber" (rollNumber.map jsTrim) ++
    requiredString "studentName" (some (jsTrim studentName)) ++ validateMarks marks ++
    requiredString "subject" subject

/-- Validation of `new Student(rollNumber, studentName, marks, subject,
teacherId)` as run by `save()`: the validator failures, or the document to
insert when there is none. -/
def validateStudent (newId : ObjectId) (rollNumber : Option String) (studentName : String)
    (marks : Option Int) (subject : Option String) (teacherId : ObjectId) :
    Except (List PathError) MarkRecord :=
  match rollNumber, marks, subject with
  | some r, some n, some s =>
    if validationErrors (some r) studentName (some n) (some s) = [] then
      .ok { _id := newId, rollNumber := jsTrim r, studentName := jsTrim studentName,
            marks := n, subject := s, teacherId := some teacherId }
    else .error (validationErrors (some r) studentName (some n) (some s))
  | r, n, s => .error (validationErrors r studentName n s)

/-- Whether inserting `doc` violates a unique index of the mark collection:
the `_id` index or the compound index on `(rollNumber, subject)`. -/
def duplicateKey (marks : List MarkRecord) (doc : MarkRecord) : Bool :=
  marks.any (fun m => m._id == doc._id || (m.rollNumber == doc.rollNumber && m.subject == doc.subject))

/-- A template-literal substitution of a body field (`undefined` prints as
such). -/
def render (v : Option String) : String :=
  v.getD "undefined"

/-- The message sent on error code 11000. -/
def duplicateMessage (body : MarkBody) : String :=
  "Mark record already exists for Roll Number " ++ render body.rollNumber ++ " in " ++
    render body.subject ++ ". Please use Edit Mark to update."

/-- The query `User.findOne(rollNumber, role: "student")`; the `trim` setter of
the path is applied to the filter value. -/
def findStudentUser (lib : Lib) (users : List User) (rollNumber : Option String) :
    Option User :=
  users.find? (fun u => lib.eqCond (rollNumber.map jsTrim) u.rollNumber && u.role == "student")

/-- The handler of `POST /api/studentmarks`, after the middleware has set
`req.user = user`.  `newId` is the `_id` generated by `new Student(...)`.
Returns the response and the mark collection afterwards. -/
def postStudentMark (lib : Lib) (users : List User) (marks : List MarkRecord)
    (user : Claims) (newId : ObjectId) (body : MarkBody) : Response × List MarkRecord :=
  match findStudentUser lib users body.rollNumber with
  | none => (⟨404, .message "Student with this Roll Number does not exist."⟩, marks)
  | some studentUser =>
    match validateStudent newId body.rollNumber studentUser.fullName body.marks body.subject
        user.id with
    | .error errs =>
      let msg := validationMessage errs
      (⟨400, .message (if msg = "" then "Invalid data or Roll Number error." else msg)⟩, marks)
    | .ok newStudent =>
      if duplicateKey marks newStudent then (⟨400, .message (duplicateMessage body)⟩, marks)
      else (⟨201, .mark newStudent⟩, marks ++ [newStudent])

/-! ## PUT and DELETE /api/studentmarks/:id -/

/-- The update document `req.body` of the update handler, restricted to the
paths of `studentSchema` (others are dropped by the mapper). -/
structure MarkUpdate where
  rollNumber : Option String
  studentName : Option String
  marks : Option Int
  subject : Option String
  teacherId : Option ObjectId
deriving DecidableEq, Repr

/-- The document after `$set` of the update: the `trim` setters run, no
validator does (`runValidators` is not passed). -/
def applyUpdate (m : MarkRecord) (body : MarkUpdate) : MarkRecord :=
  { _id := m._id
    rollNumber := (body.rollNumber.map jsTrim).getD m.rollNumber
    studentName := (body.studentName.map jsTrim).getD m.studentName
    marks := body.marks.getD m.marks
    subject := body.subject.getD m.subject
    teacherId := match body.teacherId with
      | some t => some t
      | none => m.teacherId }

/-- Replace the first document with the given `_id`. -/
def replaceById (oid : ObjectId) (new : MarkRecord) : List MarkRecord → List MarkRecord
  | [] => []
  | m :: ms => if m._id = oid then new :: ms else m :: replaceById oid new ms

/-- Remove the first document with the given `_id`. -/
def deleteById (oid : ObjectId) : List MarkRecord → List MarkRecord
  | [] => []
  | m :: ms => if m._id = oid then ms else m :: deleteById oid ms

/-- Whether writing `updated` over `old` violates the compound unique index:
the index key changed and another document already has the new key. -/
def updateConflict (marks : List MarkRecord) (old updated : MarkRecord) : Bool :=
  (updated.rollNumber != old.rollNumber || updated.subject != old.subject) &&
    (deleteById old._id marks).any
      (fun m => m.rollNumber == updated.rollNumber && m.subject == updated.subject)

/-- The handler of `PUT /api/studentmarks/:id`; `id` is `req.params.id`. -/
def putStudentMark (lib : Lib) (marks : List MarkRecord) (user : Claims) (id : String)
    (body : MarkUpdate) : Response × List MarkRecord :=
  match lib.castObjectId id with
  | none => (⟨400, .message "Invalid data"⟩, marks)
  | some oid =>
    match marks.find? (fun m => m._id == oid) with
    | none => (⟨404, .message "Student not found"⟩, marks)
    | some student =>
      match student.teacherId with
      | none => (⟨400, .message "Invalid data"⟩, marks)
      | some t =>
        if t ≠ user.id then (⟨403, .message "Not authorized to update"⟩, marks)
        else
          let updated := applyUpdate student body
          if updateConflict marks student updated then (⟨400, .message "Invalid data"⟩, marks)
          else (⟨200, .mark updated⟩, replaceById oid updated marks)

/-- The handler of `DELETE /api/studentmarks/:id`. -/
def deleteStudentMark (lib : Lib) (marks : List MarkRecord) (user : Claims) (id : String) :
    Response × List MarkRecord :=
  match lib.castObjectId id with
  | none => (⟨500, .message "Server Error"⟩, marks)
  | some oid =>
    match marks.find? (fun m => m._id == oid) with
    | none => (⟨404, .message "Student not found"⟩, marks)
    | some student =>
      match student.teacherId with
      | none => (⟨500, .message "Server Error"⟩, marks)
      | some t =>
        if t ≠ user.id then (⟨403, .message "Not authorized to delete"⟩, marks)
        else (⟨200, .message "Student deleted"⟩, deleteById oid marks)

/-! ## POST /api/auth/login -/

/-- The fields the login handler reads off `req.body`. -/
structure LoginBody where
  username : Option String
  password : Option String
deriving DecidableEq, Repr

/-- The query `User.findOne(username)`. -/
def findByUsername (lib : Lib) (users : List User) (username : Option String) : Option User :=
  users.find? (fun u => lib.eqCond (username.map jsTrim) (some u.username))

/-- The handler of `POST /api/auth/login`. -/
def login (lib : Lib) (users : List User) (body : LoginBody) : Response :=
  match findByUsername lib users body.username with
  | none => ⟨400, .message "Invalid credentials"⟩
  | some user =>
    match lib.bcryptCompare body.password user.password with
    | none => ⟨500, .message "Server Error"⟩
    | some false => ⟨400, .message "Invalid credentials"⟩
    | some true =>
      ⟨200, .session
        (lib.jwtSign ⟨user._id, user.role, user.username, user.fullName, user.rollNumber⟩)
        user.role user.username user.fullName user.rollNumber⟩

/-! ## The mark-writing routes as a transition system -/

/-- A request to one of the routes that write the mark collection, with its
`authorization` header. -/
inductive MarkRequest where
  | create (authorization : Option String) (newId : ObjectId) (body : MarkBody)
  | update (authorization : Option String) (id : String) (body : MarkUpdate)
  | delete (authorization : Option String) (id : String)
deriving DecidableEq, Repr

/-- A route `app.METHOD(path, authMiddleware(roles), handler)`: the handler
runs when the middleware calls `next()`. -/
def guarded (lib : Lib) (roles : RolesArg) (authorization : Option String)
    (marks : List MarkRecord) (handler : Claims → Response × List MarkRecord) :
    Response × List MarkRecord :=
  match authMiddleware lib roles authorization with
  | .respond status msg => (⟨status, .message msg⟩, marks)
  | .next user => handler user

/-- The three routes `POST /api/studentmarks`, `PUT /api/studentmarks/:id` and
`DELETE /api/studentmarks/:id`, each behind `authMiddleware("teacher")`. -/
def handleMarkRequest (lib : Lib) (users : List User) (marks : List MarkRecord) :
    MarkRequest → Response × List MarkRecord
  | .create a newId body =>
    guarded lib (.one "teacher") a marks (fun user => postStudentMark lib users marks user newId body)
  | .update a id body =>
    guarded lib (.one "teacher") a marks (fun user => putStudentMark lib marks user id body)
  | .delete a id =>
    guarded lib (.one "teacher") a marks (fun user => deleteStudentMark lib marks user id)

/-- The mark collection after a sequence of requests. -/
def runMarkRequests (lib : Lib) (users : List User) :
    List MarkRecord → List MarkRequest → List MarkRecord
  | marks, [] => marks
  | marks, r :: rs => runMarkRequests lib users (handleMarkRequest lib users marks r).2 rs

/-- The creations a request performs: the `_id` of the record a successful
create request (status 201) inserts, with the `id` of the teacher who sent it. -/
def creationOf (lib : Lib) (users : List User) (marks : List MarkRecord) :
    MarkRequest → List (ObjectId × ObjectId)
  | .create a newId body =>
    match authMiddleware lib (.one "teacher") a with
    | .next user =>
      if (postStudentMark lib users marks user newId body).1.status = 201 then [(newId, user.id)]
      else []
    | .respond _ _ => []
  | _ => []

/-- The creations of a sequence of requests, oldest first. -/
def creationLog (lib : Lib) (users : List User) :
    List MarkRecord → List MarkRequest → List (ObjectId × ObjectId)
  | _, [] => []
  | marks, r :: rs =>
    creationOf lib users marks r ++
      creationLog lib users (handleMarkRequest lib users marks r).2 rs

/-- The ownership statement of the specification: every record's `teacherId`
is the teacher whose create request produced the record. -/
def ownedByCreator (log : List (ObjectId × ObjectId)) (marks : List MarkRecord) : Bool :=
  marks.all (fun m => log.any (fun e => e.1 == m._id && m.teacherId == some e.2))

/-- The score statement of the specification: every record's score is in
`[0, 100]`. -/
def scoresInRange (marks : List MarkRecord) : Bool :=
  marks.all (fun m => decide (0 ≤ m.marks) && decide (m.marks ≤ 100))

/-! ## The search of the specification -/

/-- Whether `s` occurs in `text` as a literal substring, letters compared
without regard to case. -/
def containsIgnoreCase (text s : String) : Bool :=
  decide (s.data.map Char.toUpper <:+: text.data.map Char.toUpper)

/-- The search of the specification: a literal, case-insensitive substring
match on roll number, student name or subject. -/
def searchSpec (s : String) (m : MarkRecord) : Bool :=
  containsIgnoreCase m.rollNumber s || containsIgnoreCase m.studentName s ||
    containsIgnoreCase m.subject s

/-! ## Sample data -/

/-- Teacher Tina. -/
def tina : Claims := ⟨⟨"0000000000000000000000a1"⟩, "teacher", "tina", "Tina", none⟩

/-- Teacher Tom. -/
def tom : Claims := ⟨⟨"0000000000000000000000a2"⟩, "teacher", "tom", "Tom", none⟩

/-- Student Asha, roll number `R1`. -/
def asha : Claims := ⟨⟨"0000000000000000000000b1"⟩, "student", "asha", "Asha", some "R1"⟩

/-- A library instance for evaluating the handlers on concrete requests:
three tokens decode to Tina, Tom and Asha, passwords are stored in clear, a
pattern is accepted when it is the single character `.` (which tests for a
character that is not a line break), and a string of 24 hex digits casts to an
ObjectId. -/
def demoLib : Lib where
  jwtVerify := fun t =>
    if t = some "tina" then some tina
    else if t = some "tom" then some tom
    else if t = some "asha" then some asha
    else none
  jwtSign := fun c => "jwt:" ++ c.username
  bcryptCompare := fun p h => p.map (fun s => decide (s = h))
  regExp := fun src =>
    if src = "." then some (fun s => s.data.any (fun c => !(c == '\n' || c == '\r')))
    else none
  castObjectId := fun s =>
    if s.data.length = 24 ∧ s.data.all (fun c => c.isDigit || ('a' ≤ c && c ≤ 'f')) then
      some ⟨s⟩
    else none
  undefinedMatchesAll := false

/-- The users of the examples: two teachers, the student Asha (`R1`), and a
student Ravi (`R2`) registered without a display name. -/
def demoUsers : List User :=
  [ ⟨tina.id, "tina", "pw-tina", "teacher", "Tina", none⟩,
    ⟨tom.id, "tom", "pw-tom", "teacher", "Tom", none⟩,
    ⟨asha.id, "asha", "pw-asha", "student", "Asha", some "R1"⟩,
    ⟨⟨"0000000000000000000000b2"⟩, "ravi", "pw-ravi", "student", "", some "R2"⟩ ]

/-- The `_id` of the first sample mark. -/
def markId1 : ObjectId := ⟨"0000000000000000000000c1"⟩

/-- The `_id` of the second sample mark. -/
def markId2 : ObjectId := ⟨"0000000000000000000000c2"⟩

/-- Asha's Math mark, entered by Tina. -/
def mathMark : MarkRecord := ⟨markId1, "R1", "Asha", 85, "Math", some tina.id⟩

/-- Asha's Physics mark, entered by Tom. -/
def physicsMark : MarkRecord := ⟨markId2, "R1", "Asha", 70, "Physics", some tom.id⟩

/-- Tina enters Asha's Math mark, then sends an update of that mark whose
body names Tom as `teacherId`. -/
def reassignTrace : List MarkRequest :=
  [ .create (some "Bearer tina") markId1 ⟨some "R1", some 85, some "Math"⟩,
    .update (some "Bearer tina") "0000000000000000000000c1" ⟨none, none, none, none, some tom.id⟩ ]

/-- Tina enters Asha's Math mark, then sends an update of that mark whose
body carries the score 150. -/
def overrangeTrace : List MarkRequest :=
  [ .create (some "Bearer tina") markId1 ⟨some "R1", some 85, some "Math"⟩,
    .update (some "Bearer tina") "0000000000000000000000c1" ⟨none, none, some 150, none, none⟩ ]

/-! ## The admin user routes -/

/-- The JSON bodies the user routes send. -/
inductive UserBody where
  | message (msg : String)
  | created (message : String) (id : ObjectId) (username : String) (role : String)
deriving DecidableEq, Repr

/-- A response of a user route. -/
structure UserResponse where
  status : Nat
  body : UserBody
deriving DecidableEq, Repr

/-- Further collaborators of the user routes.
* `bcryptHash data` is `bcrypt.hash(data, 10)`: the hash, or the message of the
  error it rejects with.
* `duplicateKeyMessage doc` is the message of the error 11000 the database
  raises when a unique index refuses `doc`. -/
structure UserLib where
  bcryptHash : Option String → Except String String
  duplicateKeyMessage : User → String

/-- The fields `POST /api/users` reads off `req.body`. -/
structure NewUserBody where
  username : Option String
  password : Option String
  role : Option String
  fullName : Option String
  rollNumber : Option String
deriving DecidableEq, Repr

/-- The failure of one path of `userSchema` in document validation. -/
inductive UserPathError where
  | required (path : String)
  | enum (path : String) (value : String)
deriving DecidableEq, Repr

/-- The text of one validator failure (the document mapper's default
templates), preceded by its path. -/
def UserPathError.text : UserPathError → String
  | .required p => p ++ ": Path `" ++ p ++ "` is required."
  | .enum p v => p ++ ": `" ++ v ++ "` is not a valid enum value for path `" ++ p ++ "`."

/-- The `message` of the ValidationError of a `User` document. -/
def userValidationMessage (errs : List UserPathError) : String :=
  "User validation failed: " ++ ", ".intercalate (errs.map UserPathError.text)

/-- The `required` validator of a string path of `userSchema`. -/
def requiredUserString (path : String) (v : Option String) : List UserPathError :=
  match v with
  | none => [.required path]
  | some s => if s = "" then [.required path] else []

/-- The validators of the `role` path: `required` and the `enum`. -/
def validateRole (role : Option String) : List UserPathError :=
  match role with
  | none => [.required "role"]
  | some r =>
    if r = "" then [.required "role"]
    else if r = "admin" ∨ r = "teacher" ∨ r = "student" then []
    else [.enum "role" r]

/-- The validator failures of a new `User` document: `username` is trimmed,
`password` is the hash. -/
def userValidationErrors (username : Option String) (hashed : String)
    (role : Option String) : List UserPathError :=
  requiredUserString "username" (username.map jsTrim) ++
    requiredUserString "password" (some hashed) ++ validateRole role

/-- Validation of `new User(username, password: hashed, role, fullName,
rollNumber)` as run by `save()`: the validator failures, or the document to
insert (setters and the default of `fullName` applied). -/
def validateUser (newId : ObjectId) (username : Option String) (hashed : String)
    (role fullName rollNumber : Option String) : Except (List UserPathError) User :=
  match username, role with
  | some u, some r =>
    if userValidationErrors (some u) hashed (some r) = [] then
      .ok { _id := newId, username := jsTrim u, password := hashed, role := r,
            fullName := jsTrim (fullName.getD ""), rollNumber := rollNumber.map jsTrim }
    else .error (userValidationErrors (some u) hashed (some r))
  | u, r => .error (userValidationErrors u hashed r)

/-- Whether inserting `doc` violates a unique index of the user collection:
`_id`, `username`, or the sparse index on `rollNumber`. -/
def userDuplicateKey (users : List User) (doc : User) : Bool :=
  users.any (fun u => u._id == doc._id || u.username == doc.username ||
    (doc.rollNumber.isSome && u.rollNumber == doc.rollNumber))

/-- The query `User.findOne(rollNumber)` of the create handler; it is only
sent for a truthy roll number. -/
def findByRollNumber (lib : Lib) (users : List User) (rollNumber : String) : Option User :=
  users.find? (fun u => lib.eqCond (some (jsTrim rollNumber)) u.rollNumber)

/-- The test `rollNumber && (await User.findOne(rollNumber))`. -/
def rollNumberTaken (lib : Lib) (users : List User) (rollNumber : Option String) : Bool :=
  match rollNumber with
  | none => false
  | some r => if r = "" then false else (findByRollNumber lib users r).isSome

/-- The handler of `POST /api/users`, after the middleware.  `newId` is the
`_id` generated by `new User(...)`. -/
def postUser (lib : Lib) (ulib : UserLib) (users : List User) (newId : ObjectId)
    (body : NewUserBody) : UserResponse × List User :=
  match findByUsername lib users body.username with
  | some _ => (⟨400, .message "Username already exists."⟩, users)
  | none =>
    if rollNumberTaken lib users body.rollNumber then
      (⟨400, .message "Roll Number already exists."⟩, users)
    else
      match ulib.bcryptHash body.password with
      | .error msg =>
        (⟨400, .message (if msg = "" then "Failed to create user." else msg)⟩, users)
      | .ok hashed =>
        match validateUser newId body.username hashed body.role body.fullName
            body.rollNumber with
        | .error errs =>
          let msg := userValidationMessage errs
          (⟨400, .message (if msg = "" then "Failed to create user." else msg)⟩, users)
        | .ok newUser =>
          if userDuplicateKey users newUser then
            let msg := ulib.duplicateKeyMessage newUser
            (⟨400, .message (if msg = "" then "Failed to create user." else msg)⟩, users)
          else
            (⟨201, .created "User created successfully" newUser._id newUser.username
              newUser.role⟩, users ++ [newUser])

/-- Remove the first user with the given `_id` (`findByIdAndDelete`). -/
def deleteUserById (oid : ObjectId) : List User → List User
  | [] => []
  | u :: us => if u._id = oid then us else u :: deleteUserById oid us

/-- The handler of `DELETE /api/users/:id`; `id` is `req.params.id`, compared
as a string with the token's `id`. -/
def deleteUser (lib : Lib) (users : List User) (user : Claims) (id : String) :
    UserResponse × List User :=
  if user.id.hex = id then (⟨403, .message "Cannot delete yourself."⟩, users)
  else
    match lib.castObjectId id with
    | none => (⟨500, .message "Server Error"⟩, users)
    | some oid =>
      match users.find? (fun u => u._id == oid) with
      | none => (⟨404, .message "User not found."⟩, users)
      | some _ => (⟨200, .message "User deleted successfully."⟩, deleteUserById oid users)

/-- JavaScript `s.length`: the number of UTF-16 code units. -/
def jsLength (s : String) : Nat :=
  (s.data.map (fun c => if c.toNat < 65536 then 1 else 2)).sum

/-- Set the password of the first user with the given `_id`
(`findByIdAndUpdate(userId, password: hashed)`). -/
def setPasswordById (oid : ObjectId) (hashed : String) : List User → List User
  | [] => []
  | u :: us =>
    if u._id = oid then { u with password := hashed } :: us
    else u :: setPasswordById oid hashed us

/-- The handler of `PUT /api/users/password/:id`; `newPassword` is
`req.body.newPassword`. -/
def putUserPassword (lib : Lib) (ulib : UserLib) (users : List User) (id : String)
    (newPassword : Option String) : UserResponse × List User :=
  match newPassword with
  | none => (⟨400, .message "Password must be at least 6 characters long."⟩, users)
  | some p =>
    if p = "" ∨ jsLength p < 6 then
      (⟨400, .message "Password must be at least 6 characters long."⟩, users)
    else
      match ulib.bcryptHash (some p) with
      | .error _ => (⟨500, .message "Server Error during password update."⟩, users)
      | .ok hashed =>
        match lib.castObjectId id with
        | none => (⟨500, .message "Server Error during password update."⟩, users)
        | some oid =>
          match users.find? (fun u => u._id == oid) with
          | none => (⟨404, .message "User not found."⟩, users)
          | some _ =>
            (⟨200, .message "Password updated successfully."⟩,
              setPasswordById oid hashed users)

/-! ## The complaint routes -/

/-- A document of `complaintSchema`.  `createdAt` is a time stamp. -/
structure Complaint where
  _id : ObjectId
  studentId : ObjectId
  studentName : Option String
  message : String
  status : String
  createdAt : Nat
deriving DecidableEq, Repr

/-- The JSON bodies the complaint routes send. -/
inductive ComplaintBody where
  | message (msg : String)
  | complaint (c : Complaint)
  | complaints (cs : List Complaint)
deriving DecidableEq, Repr

/-- A response of a complaint route. -/
structure ComplaintResponse where
  status : Nat
  body : ComplaintBody
deriving DecidableEq, Repr

/-- Document validation of a complaint as run by `save()`: `message` is
required, `status` is in the enum (`studentId` is always present here). -/
def complaintValid (c : Complaint) : Bool :=
  c.message != "" && (c.status == "Submitted" || c.status == "Resolved")

/-- The handler of `POST /api/complaints`, after the middleware.  `newId` is
the generated `_id`, `now` the value of `Date.now`, `message` is
`req.body.message`. -/
def postComplaint (users : List User) (complaints : List Complaint) (user : Claims)
    (newId : ObjectId) (now : Nat) (message : Option String) :
    ComplaintResponse × List Complaint :=
  match users.find? (fun u => u._id == user.id) with
  | none => (⟨400, .message "Invalid data"⟩, complaints)
  | some u =>
    match message with
    | none => (⟨400, .message "Invalid data"⟩, complaints)
    | some m =>
      let complaint : Complaint :=
        { _id := newId, studentId := user.id,
          studentName := some (if u.fullName = "" then user.username else u.fullName),
          message := m, status := "Submitted", createdAt := now }
      if complaintValid complaint = false ∨ complaints.any (fun c => c._id == newId) then
        (⟨400, .message "Invalid data"⟩, complaints)
      else (⟨201, .complaint complaint⟩, complaints ++ [complaint])

/-- The handler of `GET /api/complaints`. -/
def getComplaints (complaints : List Complaint) (user : Claims) : ComplaintResponse :=
  if user.role = "student" then
    ⟨200, .complaints (complaints.filter (fun c => c.studentId == user.id))⟩
  else ⟨200, .complaints complaints⟩

/-- Write `new` over the first complaint with the given `_id` (`save()` of a
loaded document). -/
def saveComplaint (new : Complaint) : List Complaint → List Complaint
  | [] => []
  | c :: cs => if c._id = new._id then new :: cs else c :: saveComplaint new cs

/-- The handler of `PUT /api/complaints/:id`; `id` is `req.params.id`. -/
def putComplaint (lib : Lib) (complaints : List Complaint) (id : String) :
    ComplaintResponse × List Complaint :=
  match lib.castObjectId id with
  | none => (⟨400, .message "Invalid data"⟩, complaints)
  | some oid =>
    match complaints.find? (fun c => c._id == oid) with
    | none => (⟨404, .message "Complaint not found"⟩, complaints)
    | some complaint =>
      let resolved := { complaint with status := "Resolved" }
      if complaintValid resolved then (⟨200, .complaint resolved⟩, saveComplaint resolved complaints)
      else (⟨400, .message "Invalid data"⟩, complaints)

/-- The same route as `routes/complaintRoutes.js` declares it (a router the
server does not mount): it differs in the text of the 404 message. -/
def routerPutComplaint (lib : Lib) (complaints : List Complaint) (id : String) :
    ComplaintResponse × List Complaint :=
  match lib.castObjectId id with
  | none => (⟨400, .message "Invalid data"⟩, complaints)
  | some oid =>
    match complaints.find? (fun c => c._id == oid) with
    | none => (⟨404, .message "Not found"⟩, complaints)
    | some complaint =>
      let resolved := { complaint with status := "Resolved" }
      if complaintValid resolved then (⟨200, .complaint resolved⟩, saveComplaint resolved complaints)
      else (⟨400, .message "Invalid data"⟩, complaints)

/-- A request to one of the complaint routes, with its `authorization`
header. -/
inductive ComplaintRequest where
  | create (authorization : Option String) (newId : ObjectId) (now : Nat)
      (message : Option String)
  | list (authorization : Option String)
  | resolve (authorization : Option String) (id : String)
deriving DecidableEq, Repr

/-- The three complaint routes behind their middleware:
`POST` for students, `GET` for all roles, `PUT` for teachers and admins. -/
def handleComplaintRequest (lib : Lib) (users : List User) (complaints : List Complaint) :
    ComplaintRequest → ComplaintResponse × List Complaint
  | .create a newId now message =>
    match authMiddleware lib (.one "student") a with
    | .respond status msg => (⟨status, .message msg⟩, complaints)
    | .next user => postComplaint users complaints user newId now message
  | .list a =>
    match authMiddleware lib (.many ["admin", "teacher", "student"]) a with
    | .respond status msg => (⟨status, .message msg⟩, complaints)
    | .next user => (getComplaints complaints user, complaints)
  | .resolve a id =>
    match authMiddleware lib (.many ["teacher", "admin"]) a with
    | .respond status msg => (⟨status, .message msg⟩, complaints)
    | .next _ => putComplaint lib complaints id

/-- The complaint collection after a sequence of requests. -/
def runComplaintRequests (lib : Lib) (users : List User) :
    List Complaint → List ComplaintRequest → List Complaint
  | complaints, [] => complaints
  | complaints, r :: rs =>
    runComplaintRequests lib users (handleComplaintRequest lib users complaints r).2 rs

/-! ## Sample data of the user and complaint routes -/

/-- The admin Root. -/
def root : Claims := ⟨⟨"0000000000000000000000ad"⟩, "admin", "root", "Root", none⟩

/-- The ObjectId cast of a string of 24 hex digits of either case, the
canonical form being lower case. -/
def castHex (s : String) : Option ObjectId :=
  if s.data.length = 24 ∧ s.data.all
      (fun c => c.isDigit || ('a' ≤ c && c ≤ 'f') || ('A' ≤ c && c ≤ 'F')) then
    some ⟨String.mk (s.data.map Char.toLower)⟩
  else none

/-- The sample library with the ObjectId cast `castHex`. -/
def hexLib : Lib := { demoLib with castObjectId := castHex }

/-- Sample collaborators of the user routes: the hash of a password is the
password itself, as `demoLib` compares in clear; hashing nothing is an error. -/
def demoUserLib : UserLib where
  bcryptHash := fun d =>
    match d with
    | some p => .ok p
    | none => .error "data and salt arguments required"
  duplicateKeyMessage := fun _ => "E11000 duplicate key error"

/-- The sample users with the admin Root. -/
def staffUsers : List User :=
  ⟨root.id, "root", "pw-root", "admin", "Root", none⟩ :: demoUsers

/-- The `_id` of the sample complaint. -/
def complaintId1 : ObjectId := ⟨"0000000000000000000000d1"⟩

/-- A complaint Asha submitted. -/
def ashaComplaint : Complaint :=
  ⟨complaintId1, asha.id, some "Asha", "Marks entered twice", "Submitted", 1000⟩

/-! ## Theorems -/

/-! ### C1: the outcome table of `authMiddleware` -/

/-- On every header other than the empty string the middleware follows the
outcome table of the specification. -/
theorem authMiddleware_eq_spec (lib : Lib) (roles : RolesArg) (authorization : Option String)
    (h : authorization ≠ some "") :
    authMiddleware lib roles authorization = authOutcomeSpec lib roles.toList authorization := by
  unfold authMiddleware authOutcomeSpec
  cases authorization with
  | none => rfl
  | some hd =>
    have hne : hd ≠ "" := fun e => h (by rw [e])
    simp only [hne, if_false]
    cases lib.jwtVerify ((splitSpace hd)[1]?) with
    | none => rfl
    | some c => simp [List.length_eq_zero]

/-- C1 (as amended): for every role configuration and request, `authMiddleware`
answers 401 "Authentication required" when the Authorization header is absent
or empty; otherwise 401 "Invalid token" when verification of the extracted
token fails; otherwise 403 when the allowed-role set is non-empty and the
claims' role is not a member; otherwise it calls the downstream handler once
with `req.user` equal to the decoded claims.  Whenever it responds, the
downstream handler is not called. -/
theorem authMiddleware_outcome (lib : Lib) (roles : RolesArg) (authorization : Option String) :
    ((authorization = none ∨ authorization = some "") →
      authMiddleware lib roles authorization = .respond 401 "Authentication required") ∧
    (∀ hd, authorization = some hd → hd ≠ "" →
      (lib.jwtVerify ((splitSpace hd)[1]?) = none →
        authMiddleware lib roles authorization = .respond 401 "Invalid token") ∧
      (∀ c, lib.jwtVerify ((splitSpace hd)[1]?) = some c →
        ((roles.toList ≠ [] ∧ c.role ∉ roles.toList) →
          authMiddleware lib roles authorization =
            .respond 403 "Forbidden: insufficient rights") ∧
        ((roles.toList = [] ∨ c.role ∈ roles.toList) →
          authMiddleware lib roles authorization = .next c ∧
          (authMiddleware lib roles authorization).nextCalls = 1))) ∧
    (∀ status msg, authMiddleware lib roles authorization = .respond status msg →
      (authMiddleware lib roles authorization).nextCalls = 0) := by
  refine ⟨?_, ?_, ?_⟩
  · rintro (h | h) <;> subst h <;> simp [authMiddleware]
  · intro hd h hne
    subst h
    refine ⟨?_, ?_⟩
    · intro hv
      simp [authMiddleware, hne, hv]
    · intro c hv
      refine ⟨?_, ?_⟩
      · rintro ⟨h1, h2⟩
        simp [authMiddleware, hne, hv, h1, h2, List.length_eq_zero]
      · intro h1
        have hno : ¬ (roles.toList.length ≠ 0 ∧ ¬ c.role ∈ roles.toList) := by
          rintro ⟨a, b⟩
          rcases h1 with h1 | h1
          · exact a (by simp [h1])
          · exact b h1
        have hout : authMiddleware lib roles (some hd) = .next c := by
          unfold authMiddleware
          simp only [hne, if_false, hv]
          rw [if_neg hno]
        rw [hout]
        exact ⟨rfl, rfl⟩
  · intro status msg h
    rw [h]
    rfl

/-- C1 (counterexample): with an Authorization header that is present and
empty the middleware answers "Authentication required", where the outcome
table of the specification extracts no token and answers "Invalid token". -/
theorem authMiddleware_empty_header :
    authMiddleware demoLib (.many []) (some "") = .respond 401 "Authentication required" ∧
    authOutcomeSpec demoLib [] (some "") = .respond 401 "Invalid token" ∧
    authMiddleware demoLib (.many []) (some "") ≠ authOutcomeSpec demoLib [] (some "") := by
  decide

/-! ### C2 and C9: `GET /api/studentmarks` -/

/-- The first element of a filtered list is what `find?` returns. -/
theorem find?_eq_head?_filter {α : Type} (p : α → Bool) (l : List α) :
    l.find? p = (l.filter p).head? := by
  induction l with
  | nil => rfl
  | cons a l ih =>
    cases h : p a with
    | true => simp only [List.find?, List.filter, h, List.head?]
    | false => simp only [List.find?, List.filter, h, ih]

/-- When at most one user carries a roll number, `$lookup` and `$unwind` turn a
mark into one pair: the mark with the user of its roll number, if any. -/
theorem lookupUnwind_unique (users : List User) (m : MarkRecord)
    (huniq : (users.filter (fun u => u.rollNumber == some m.rollNumber)).length ≤ 1) :
    lookupUnwind users m =
      [(m, users.find? (fun u => u.rollNumber == some m.rollNumber))] := by
  unfold lookupUnwind
  rw [find?_eq_head?_filter]
  cases hf : users.filter (fun u => u.rollNumber == some m.rollNumber) with
  | nil => rfl
  | cons u us =>
    rw [hf] at huniq
    cases us with
    | nil => rfl
    | cons v vs => simp at huniq

/-- The aggregation pipeline over users with unique roll numbers yields one
row per matched mark. -/
theorem aggregateMarks_unique (users : List User) (marks : List MarkRecord)
    (f : MarkRecord → Bool)
    (huniq : ∀ r, (users.filter (fun u => u.rollNumber == some r)).length ≤ 1) :
    aggregateMarks users marks f =
      (marks.filter f).map (fun m => projectRow
        (m, users.find? (fun u => u.rollNumber == some m.rollNumber))) := by
  unfold aggregateMarks
  induction marks.filter f with
  | nil => rfl
  | cons m ms ih =>
    rw [List.flatMap_cons, List.map_append, ih, lookupUnwind_unique users m (huniq _)]
    rfl

/-- The roll-number condition of the student listing, for a token whose roll
number is as the user schema stores it (trimmed). -/
theorem eqCond_trimmed (lib : Lib) (rn : String) (htrim : jsTrim rn = rn) (r : String) :
    lib.eqCond ((some rn).map jsTrim) (some r) = (r == rn) := by
  simp [Lib.eqCond, htrim]

/-- C2: for every store state, every student caller (a token with role
student whose roll-number claim is as the user schema stores it) and every
search term, including none, `GET /api/studentmarks` either fails with
500 because the search term is not a regular expression, or returns records
that all carry the caller's roll number and form a sub-list of what the caller
gets without a search term, which is exactly the caller's own records. -/
theorem student_listing_own_records (lib : Lib) (users : List User) (marks : List MarkRecord)
    (user : Claims) (search : Option String) (rn : String)
    (hrole : user.role = "student") (hrn : user.rollNumber = some rn)
    (htrim : jsTrim rn = rn) :
    getStudentMarks lib users marks user none =
      ⟨200, .marks (marks.filter (fun m => m.rollNumber == rn))⟩ ∧
    ((searchFilter lib search = none ∧
        getStudentMarks lib users marks user search = ⟨500, .message "Server Error"⟩) ∨
      ∃ ms, getStudentMarks lib users marks user search = ⟨200, .marks ms⟩ ∧
        (∀ m ∈ ms, m.rollNumber = rn) ∧
        ms.Sublist (marks.filter (fun m => m.rollNumber == rn))) := by
  have hstaff : ¬ (user.role = "admin" ∨ user.role = "teacher") := by
    rw [hrole]; decide
  have hcond : ∀ m : MarkRecord,
      lib.eqCond (user.rollNumber.map jsTrim) (some m.rollNumber) = (m.rollNumber == rn) := by
    intro m
    rw [hrn]
    exact eqCond_trimmed lib rn htrim m.rollNumber
  refine ⟨?_, ?_⟩
  · simp only [getStudentMarks, searchFilter]
    rw [if_neg hstaff, if_pos hrole]
    simp only [hcond, Bool.and_true]
  · cases hsf : searchFilter lib search with
    | none =>
      left
      exact ⟨rfl, by simp only [getStudentMarks, hsf]⟩
    | some sf =>
      right
      refine ⟨marks.filter (fun m => m.rollNumber == rn && sf m), ?_, ?_, ?_⟩
      · simp only [getStudentMarks, hsf]
        rw [if_neg hstaff, if_pos hrole]
        simp only [hcond]
      · intro m hm
        have := (List.mem_filter.mp hm).2
        simp only [Bool.and_eq_true, beq_iff_eq] at this
        exact this.1
      · apply List.monotone_filter_right
        intro a ha
        simp only [Bool.and_eq_true] at ha
        exact ha.1

/-- The student listing for a token without a roll-number claim: the filter
value is `undefined`, and the caller gets every record that passes the search
when the driver drops such a key, none when it sends `null`. -/
theorem student_listing_without_rollNumber (lib : Lib) (users : List User)
    (marks : List MarkRecord) (user : Claims) (hrole : user.role = "student")
    (hrn : user.rollNumber = none) :
    getStudentMarks lib users marks user none =
      ⟨200, .marks (if lib.undefinedMatchesAll then marks else [])⟩ := by
  have hstaff : ¬ (user.role = "admin" ∨ user.role = "teacher") := by
    rw [hrole]; decide
  simp only [getStudentMarks, searchFilter]
  rw [if_neg hstaff, if_pos hrole, hrn]
  cases hu : lib.undefinedMatchesAll <;> simp [Lib.eqCond, hu]

/-- C2 (witness): Asha, a student with roll number `R1`, lists her marks. -/
theorem student_listing_own_records_witness :
    getStudentMarks demoLib demoUsers [mathMark, physicsMark] asha none =
      ⟨200, .marks (([mathMark, physicsMark] : List MarkRecord).filter
        (fun m => m.rollNumber == "R1"))⟩ ∧
    ((searchFilter demoLib (some ".") = none ∧
        getStudentMarks demoLib demoUsers [mathMark, physicsMark] asha (some ".") =
          ⟨500, .message "Server Error"⟩) ∨
      ∃ ms, getStudentMarks demoLib demoUsers [mathMark, physicsMark] asha (some ".") =
          ⟨200, .marks ms⟩ ∧
        (∀ m ∈ ms, m.rollNumber = "R1") ∧
        ms.Sublist (([mathMark, physicsMark] : List MarkRecord).filter
          (fun m => m.rollNumber == "R1"))) :=
  student_listing_own_records demoLib demoUsers [mathMark, physicsMark] asha (some ".") "R1"
    (by decide) (by decide) (by decide)

/-- C9: for every store state in which at most one user carries each roll
number, every admin or teacher caller and every search term for which the
search filter is built, `GET /api/studentmarks` returns one row per mark record
that satisfies the search filter and, for a teacher, has `teacherId` equal to
the caller's id, in store order and no other row; the row's `studentName` is
the `fullName` of the user with the mark's roll number and is absent when there
is no such user.  When the search term is not a regular expression the answer
is 500. -/
theorem staff_listing_exact (lib : Lib) (users : List User) (marks : List MarkRecord)
    (user : Claims) (search : Option String)
    (huniq : ∀ r, (users.filter (fun u => u.rollNumber == some r)).length ≤ 1)
    (hrole : user.role = "admin" ∨ user.role = "teacher") :
    (searchFilter lib search = none →
      getStudentMarks lib users marks user search = ⟨500, .message "Server Error"⟩) ∧
    (∀ sf, searchFilter lib search = some sf →
      getStudentMarks lib users marks user search =
        ⟨200, .rows ((marks.filter (fun m =>
            (decide (user.role = "admin") || m.teacherId == some user.id) && sf m)).map
          (fun m =>
            { _id := m._id, rollNumber := m.rollNumber, marks := m.marks,
              subject := m.subject, teacherId := m.teacherId,
              studentName := (users.find? (fun u => u.rollNumber == some m.rollNumber)).map
                (fun u => u.fullName) }))⟩) := by
  refine ⟨?_, ?_⟩
  · intro hsf
    simp only [getStudentMarks, hsf]
  · intro sf hsf
    have hown : ∀ m : MarkRecord,
        ownershipFilter user m = (decide (user.role = "admin") || m.teacherId == some user.id) := by
      intro m
      unfold ownershipFilter
      by_cases ha : user.role = "admin"
      · simp [ha]
      · simp [ha]
    simp only [getStudentMarks, hsf, if_pos hrole, aggregateMarks_unique users marks _ huniq,
      hown]
    rfl

/-- In the sample users at most one user carries each roll number. -/
theorem demoUsers_rollNumbers_unique (r : String) :
    (demoUsers.filter (fun u => u.rollNumber == some r)).length ≤ 1 := by
  by_cases h1 : r = "R1"
  · subst h1; decide
  · by_cases h2 : r = "R2"
    · subst h2; decide
    · have e1 : (some "R1" == some r) = false := by
        simpa using fun h => h1 h.symm
      have e2 : (some "R2" == some r) = false := by
        simpa using fun h => h2 h.symm
      have e0 : ((none : Option String) == some r) = false := rfl
      simp only [demoUsers, List.filter, e0, e1, e2]
      decide

/-- C9 (witness): Tom, a teacher, lists the marks; he gets his own. -/
theorem staff_listing_exact_witness :
    getStudentMarks demoLib demoUsers [mathMark, physicsMark] tom none =
      ⟨200, .rows [⟨markId2, "R1", 70, "Physics", some tom.id, some "Asha"⟩]⟩ :=
  ((staff_listing_exact demoLib demoUsers [mathMark, physicsMark] tom none
    demoUsers_rollNumbers_unique (by decide)).2 _ rfl).trans (by decide)

/-! ### C3: the guards of `PUT` and `DELETE /api/studentmarks/:id` -/

/-- The lookup `Student.findById` finds nothing when no record has the id. -/
theorem findById_none (marks : List MarkRecord) (oid : ObjectId)
    (h : ∀ m ∈ marks, m._id ≠ oid) : marks.find? (fun m => m._id == oid) = none := by
  rw [List.find?_eq_none]
  intro m hm
  simpa using h m hm

/-- The lookup `Student.findById` finds a record with the id when there is one. -/
theorem findById_some (marks : List MarkRecord) (oid : ObjectId)
    (h : ∃ m ∈ marks, m._id = oid) :
    ∃ m, marks.find? (fun m => m._id == oid) = some m ∧ m ∈ marks ∧ m._id = oid := by
  cases hf : marks.find? (fun m => m._id == oid) with
  | none =>
    obtain ⟨m, hm, hid⟩ := h
    have := (List.find?_eq_none.mp hf) m hm
    simp [hid] at this
  | some m =>
    refine ⟨m, rfl, List.mem_of_find?_eq_some hf, ?_⟩
    simpa using List.find?_some hf

/-- The update handler changes the collection only on behalf of the owner of
an existing record. -/
theorem putStudentMark_changes (lib : Lib) (marks : List MarkRecord) (user : Claims)
    (id : String) (body : MarkUpdate)
    (h : (putStudentMark lib marks user id body).2 ≠ marks) :
    ∃ oid, lib.castObjectId id = some oid ∧
      ∃ m ∈ marks, m._id = oid ∧ m.teacherId = some user.id := by
  unfold putStudentMark at h
  cases hc : lib.castObjectId id with
  | none => simp [hc] at h
  | some oid =>
    cases hf : marks.find? (fun m => m._id == oid) with
    | none => simp [hc, hf] at h
    | some m =>
      cases ht : m.teacherId with
      | none => simp [hc, hf, ht] at h
      | some t =>
        by_cases hne : t = user.id
        · refine ⟨oid, rfl, m, List.mem_of_find?_eq_some hf, ?_, ?_⟩
          · simpa using List.find?_some hf
          · rw [ht, hne]
        · simp [hc, hf, ht, hne] at h

/-- The delete handler changes the collection only on behalf of the owner of
an existing record. -/
theorem deleteStudentMark_changes (lib : Lib) (marks : List MarkRecord) (user : Claims)
    (id : String) (h : (deleteStudentMark lib marks user id).2 ≠ marks) :
    ∃ oid, lib.castObjectId id = some oid ∧
      ∃ m ∈ marks, m._id = oid ∧ m.teacherId = some user.id := by
  unfold deleteStudentMark at h
  cases hc : lib.castObjectId id with
  | none => simp [hc] at h
  | some oid =>
    cases hf : marks.find? (fun m => m._id == oid) with
    | none => simp [hc, hf] at h
    | some m =>
      cases ht : m.teacherId with
      | none => simp [hc, hf, ht] at h
      | some t =>
        by_cases hne : t = user.id
        · refine ⟨oid, rfl, m, List.mem_of_find?_eq_some hf, ?_, ?_⟩
          · simpa using List.find?_some hf
          · rw [ht, hne]
        · simp [hc, hf, ht, hne] at h

/-- C3: for every caller of the teacher routes and every path parameter that
is a mark id (it casts to an ObjectId), `PUT` and `DELETE
/api/studentmarks/:id` answer 404 when no mark record has that id and 403 when
the records with that id have an owning teacher other than the caller, leaving
the mark collection unchanged in both cases; the collection changes only when a
record with that id exists whose owning teacher is the caller, and for such a
record delete removes it and update writes the changed document (unless the
unique index rejects it). -/
theorem put_delete_guard (lib : Lib) (marks : List MarkRecord) (user : Claims) (id : String)
    (oid : ObjectId) (body : MarkUpdate) (hcast : lib.castObjectId id = some oid) :
    ((∀ m ∈ marks, m._id ≠ oid) →
      putStudentMark lib marks user id body = (⟨404, .message "Student not found"⟩, marks) ∧
      deleteStudentMark lib marks user id = (⟨404, .message "Student not found"⟩, marks)) ∧
    ((∃ m ∈ marks, m._id = oid) →
      (∀ m ∈ marks, m._id = oid → ∃ t, m.teacherId = some t ∧ t ≠ user.id) →
      putStudentMark lib marks user id body =
        (⟨403, .message "Not authorized to update"⟩, marks) ∧
      deleteStudentMark lib marks user id =
        (⟨403, .message "Not authorized to delete"⟩, marks)) ∧
    (((putStudentMark lib marks user id body).2 ≠ marks ∨
        (deleteStudentMark lib marks user id).2 ≠ marks) →
      ∃ m ∈ marks, m._id = oid ∧ m.teacherId = some user.id) ∧
    (∀ m, marks.find? (fun m => m._id == oid) = some m → m.teacherId = some user.id →
      deleteStudentMark lib marks user id =
        (⟨200, .message "Student deleted"⟩, deleteById oid marks) ∧
      (updateConflict marks m (applyUpdate m body) = false →
        putStudentMark lib marks user id body =
          (⟨200, .mark (applyUpdate m body)⟩, replaceById oid (applyUpdate m body) marks))) := by
  refine ⟨?_, ?_, ?_, ?_⟩
  · intro h
    have hf := findById_none marks oid h
    simp [putStudentMark, deleteStudentMark, hcast, hf]
  · intro hex hown
    obtain ⟨m, hf, hm, hid⟩ := findById_some marks oid hex
    obtain ⟨t, ht, hne⟩ := hown m hm hid
    simp [putStudentMark, deleteStudentMark, hcast, hf, ht, hne]
  · rintro (h | h)
    · obtain ⟨o, ho, hm⟩ := putStudentMark_changes lib marks user id body h
      rw [hcast] at ho
      cases ho
      exact hm
    · obtain ⟨o, ho, hm⟩ := deleteStudentMark_changes lib marks user id h
      rw [hcast] at ho
      cases ho
      exact hm
  · intro m hf ht
    refine ⟨?_, ?_⟩
    · simp [deleteStudentMark, hcast, hf, ht]
    · intro hc
      simp [putStudentMark, hcast, hf, ht, hc]

/-- C3 (witness): the path parameter of Tina's Math mark, sent by Tom. -/
theorem put_delete_guard_witness :
    putStudentMark demoLib [mathMark] tom "0000000000000000000000c1"
        ⟨none, none, some 90, none, none⟩ =
      (⟨403, .message "Not authorized to update"⟩, [mathMark]) ∧
    deleteStudentMark demoLib [mathMark] tom "0000000000000000000000c1" =
      (⟨403, .message "Not authorized to delete"⟩, [mathMark]) :=
  (put_delete_guard demoLib [mathMark] tom "0000000000000000000000c1" markId1
    ⟨none, none, some 90, none, none⟩ (by decide)).2.1 ⟨mathMark, by decide, by decide⟩
    (by
      intro m hm _
      have hm2 : m = mathMark := by simpa using hm
      subst hm2
      exact ⟨tina.id, rfl, by decide⟩)

/-! ### C4 and C7: what an update may write -/

/-- The validators find nothing exactly when the trimmed roll number, the
trimmed student name and the subject are not empty and the score is in
`[0, 100]`. -/
theorem validationErrors_eq_nil (r : String) (studentName : String) (n : Int) (s : String) :
    validationErrors (some r) studentName (some n) (some s) = [] ↔
      jsTrim r ≠ "" ∧ jsTrim studentName ≠ "" ∧ 0 ≤ n ∧ n ≤ 100 ∧ s ≠ "" := by
  unfold validationErrors requiredString validateMarks
  by_cases h1 : jsTrim r = "" <;> by_cases h2 : jsTrim studentName = "" <;>
    by_cases h3 : n < 0 <;> by_cases h4 : 100 < n <;> by_cases h5 : s = "" <;>
    simp [h1, h2, h3, h4, h5]
  all_goals omega

/-- What validation lets through: all three body fields are present, the
trimmed roll number, the trimmed student name and the subject are not empty, the
score is in `[0, 100]`, and the document is built from them. -/
theorem validateStudent_ok (newId : ObjectId) (rollNumber : Option String)
    (studentName : String) (marks : Option Int) (subject : Option String)
    (teacherId : ObjectId) (doc : MarkRecord)
    (h : validateStudent newId rollNumber studentName marks subject teacherId = .ok doc) :
    ∃ r n s, rollNumber = some r ∧ marks = some n ∧ subject = some s ∧ jsTrim r ≠ "" ∧
      jsTrim studentName ≠ "" ∧ 0 ≤ n ∧ n ≤ 100 ∧ s ≠ "" ∧
      doc = ⟨newId, jsTrim r, jsTrim studentName, n, s, some teacherId⟩ := by
  unfold validateStudent at h
  split at h
  · rename_i r n s
    split at h
    · rename_i he
      obtain ⟨h1, h2, h3, h4, h5⟩ := (validationErrors_eq_nil r studentName n s).mp he
      injection h with h
      exact ⟨r, n, s, rfl, rfl, rfl, h1, h2, h3, h4, h5, h.symm⟩
    · cases h
  · cases h

/-- Validation accepts a body with a non-empty trimmed roll number, a
non-empty subject and a score in `[0, 100]` for a student whose trimmed name is
not empty. -/
theorem validateStudent_valid (newId : ObjectId) (r : String) (studentName : String)
    (n : Int) (s : String) (teacherId : ObjectId) (h1 : jsTrim r ≠ "")
    (h2 : jsTrim studentName ≠ "") (h3 : 0 ≤ n) (h4 : n ≤ 100) (h5 : s ≠ "") :
    validateStudent newId (some r) studentName (some n) (some s) teacherId =
      .ok ⟨newId, jsTrim r, jsTrim studentName, n, s, some teacherId⟩ := by
  have he := (validationErrors_eq_nil r studentName n s).mpr ⟨h1, h2, h3, h4, h5⟩
  simp only [validateStudent, he, if_true]

/-- A create request only inserts documents that passed validation: the
collection keeps all scores in `[0, 100]`. -/
theorem postStudentMark_scoresInRange (lib : Lib) (users : List User)
    (marks : List MarkRecord) (user : Claims) (newId : ObjectId) (body : MarkBody)
    (h : scoresInRange marks = true) :
    scoresInRange (postStudentMark lib users marks user newId body).2 = true := by
  unfold postStudentMark
  cases findStudentUser lib users body.rollNumber with
  | none => exact h
  | some su =>
    simp only
    cases hv : validateStudent newId body.rollNumber su.fullName body.marks body.subject user.id with
    | error e => exact h
    | ok doc =>
      simp only
      split
      · exact h
      · obtain ⟨r, n, s, -, -, -, -, -, hlo, hhi, -, hdoc⟩ := validateStudent_ok _ _ _ _ _ _ _ hv
        have hm : doc.marks = n := by rw [hdoc]
        simp only [scoresInRange, List.all_append, List.all_cons, List.all_nil, Bool.and_true,
          Bool.and_eq_true, decide_eq_true_eq] at h ⊢
        exact ⟨h, by rw [hm]; exact ⟨hlo, hhi⟩⟩

/-- C4 (failing trace): Tina creates a mark and then updates it with a body
naming Tom as `teacherId`.  The update is accepted, the record's owning teacher
is now Tom although the create request was Tina's, and Tom's delete request for
the record succeeds. -/
theorem ownership_reassigned_by_update :
    runMarkRequests demoLib demoUsers [] reassignTrace =
      [{ mathMark with teacherId := some tom.id }] ∧
    creationLog demoLib demoUsers [] reassignTrace = [(markId1, tina.id)] ∧
    ownedByCreator (creationLog demoLib demoUsers [] reassignTrace)
      (runMarkRequests demoLib demoUsers [] reassignTrace) = false ∧
    handleMarkRequest demoLib demoUsers (runMarkRequests demoLib demoUsers [] reassignTrace)
        (.delete (some "Bearer tom") "0000000000000000000000c1") =
      (⟨200, .message "Student deleted"⟩, []) := by
  decide

/-- C7 (failing trace): starting from the empty collection, Tina creates a
mark with score 85 and then updates it with a body carrying the score 150.  The
update is answered 200 and the collection holds a record with score 150. -/
theorem score_out_of_range_by_update :
    handleMarkRequest demoLib demoUsers [mathMark]
        (.update (some "Bearer tina") "0000000000000000000000c1"
          ⟨none, none, some 150, none, none⟩) =
      (⟨200, .mark { mathMark with marks := 150 }⟩, [{ mathMark with marks := 150 }]) ∧
    runMarkRequests demoLib demoUsers [] overrangeTrace = [{ mathMark with marks := 150 }] ∧
    scoresInRange (runMarkRequests demoLib demoUsers [] overrangeTrace) = false := by
  decide

/-! ### C8: the search filter is a regular expression -/

/-- C8 (failing input): in every library in which, as in ECMAScript, the
pattern `.` compiles and matches `R1`, and the pattern `(` is a SyntaxError,
the search term `.` selects Asha's Math mark although no field of the record
contains a full stop, and the search term `(` makes the listing fail with 500. -/
theorem search_term_read_as_pattern (lib : Lib) (regex : String → Bool)
    (hdot : lib.regExp "." = some regex) (hmatch : regex "R1" = true)
    (hparen : lib.regExp "(" = none) :
    (∃ sf, searchFilter lib (some ".") = some sf ∧ sf mathMark = true) ∧
    searchSpec "." mathMark = false ∧
    (∀ users marks user, getStudentMarks lib users marks user (some "(") =
      ⟨500, .message "Server Error"⟩) := by
  refine ⟨⟨fun m => regex m.rollNumber || regex m.studentName || regex m.subject, ?_, ?_⟩,
    by decide, ?_⟩
  · simp only [searchFilter, hdot]
    rfl
  · have hr : mathMark.rollNumber = "R1" := rfl
    simp only [hr, hmatch, Bool.true_or]
  · intro users marks user
    have hs : searchFilter lib (some "(") = none := by
      simp only [searchFilter, hparen]
      rfl
    simp only [getStudentMarks, hs]

/-- C8 (witness): the sample library reads `.` and `(` as ECMAScript does. -/
theorem search_term_read_as_pattern_witness :
    (∃ sf, searchFilter demoLib (some ".") = some sf ∧ sf mathMark = true) ∧
    searchSpec "." mathMark = false ∧
    (∀ users marks user, getStudentMarks demoLib users marks user (some "(") =
      ⟨500, .message "Server Error"⟩) :=
  search_term_read_as_pattern demoLib
    (fun s => s.data.any (fun c => !(c == '\n' || c == '\r'))) rfl (by decide) rfl

/-! ### C10: login failures -/

/-- The lookup `User.findOne(username)` finds nothing when no user has the name. -/
theorem findByUsername_none (lib : Lib) (users : List User) (name : String)
    (h : ∀ u ∈ users, u.username ≠ jsTrim name) :
    findByUsername lib users (some name) = none := by
  unfold findByUsername
  rw [List.find?_eq_none]
  intro u hu
  simpa [Lib.eqCond] using h u hu

/-- C10: for every store state and every pair of login requests, one naming
a user that does not exist and one naming an existing user with a password that
`bcrypt.compare` reports as not matching the stored hash, the two responses are
the same response: status 400 with message "Invalid credentials", which carries
no token. -/
theorem login_failures_indistinguishable (lib : Lib) (users : List User)
    (unknown known : String) (pw1 pw2 : Option String)
    (hunknown : ∀ u ∈ users, u.username ≠ jsTrim unknown)
    (hknown : ∃ u ∈ users, u.username = jsTrim known)
    (hbad : ∀ u ∈ users, u.username = jsTrim known →
      lib.bcryptCompare pw2 u.password = some false) :
    login lib users ⟨some unknown, pw1⟩ = ⟨400, .message "Invalid credentials"⟩ ∧
    login lib users ⟨some known, pw2⟩ = ⟨400, .message "Invalid credentials"⟩ ∧
    login lib users ⟨some unknown, pw1⟩ = login lib users ⟨some known, pw2⟩ ∧
    (∃ u ∈ users, findByUsername lib users (some known) = some u ∧
      u.username = jsTrim known ∧ lib.bcryptCompare pw2 u.password = some false) := by
  have hfound : ∃ u ∈ users, findByUsername lib users (some known) = some u ∧
      u.username = jsTrim known ∧ lib.bcryptCompare pw2 u.password = some false := by
    cases hf : findByUsername lib users (some known) with
    | none =>
      obtain ⟨u, hu, hn⟩ := hknown
      have := (List.find?_eq_none.mp hf) u hu
      simp [Lib.eqCond, hn] at this
    | some u =>
      have hu : u ∈ users := List.mem_of_find?_eq_some hf
      have hn : u.username = jsTrim known := by
        have := List.find?_some hf
        simpa [Lib.eqCond] using this
      exact ⟨u, hu, rfl, hn, hbad u hu hn⟩
  have h1 : login lib users ⟨some unknown, pw1⟩ = ⟨400, .message "Invalid credentials"⟩ := by
    simp only [login, findByUsername_none lib users unknown hunknown]
  have h2 : login lib users ⟨some known, pw2⟩ = ⟨400, .message "Invalid credentials"⟩ := by
    cases hf : findByUsername lib users (some known) with
    | none =>
      simp only [login, hf]
    | some u =>
      have hu : u ∈ users := List.mem_of_find?_eq_some hf
      have hn : u.username = jsTrim known := by
        have := List.find?_some hf
        simpa [Lib.eqCond] using this
      simp only [login, hf, hbad u hu hn]
  exact ⟨h1, h2, h1.trans h2.symm, hfound⟩

/-- C10 (witness): an unknown user name, and Tina with a wrong password. -/
theorem login_failures_indistinguishable_witness :
    login demoLib demoUsers ⟨some "nobody", some "pw-tina"⟩ =
      ⟨400, .message "Invalid credentials"⟩ ∧
    login demoLib demoUsers ⟨some "tina", some "guess"⟩ =
      ⟨400, .message "Invalid credentials"⟩ ∧
    login demoLib demoUsers ⟨some "nobody", some "pw-tina"⟩ =
      login demoLib demoUsers ⟨some "tina", some "guess"⟩ :=
  let h := login_failures_indistinguishable demoLib demoUsers "nobody" "tina" (some "pw-tina")
    (some "guess") (by decide) (by decide) (by decide)
  ⟨h.1, h.2.1, h.2.2.1⟩

/-! ### C5 and C6: `POST /api/studentmarks` -/

/-- The user `User.findOne(rollNumber, role: "student")` returns is a stored
student with the trimmed roll number. -/
theorem findStudentUser_some (lib : Lib) (users : List User) (rn : String) (su : User)
    (h : findStudentUser lib users (some rn) = some su) :
    su ∈ users ∧ su.role = "student" ∧ su.rollNumber = some (jsTrim rn) := by
  unfold findStudentUser at h
  have hp := List.find?_some h
  simp only [Lib.eqCond, Option.map_some', Bool.and_eq_true, beq_iff_eq] at hp
  exact ⟨List.mem_of_find?_eq_some h, hp.2, hp.1⟩

/-- The query `User.findOne(rollNumber, role: "student")` returns nothing when
no student has the trimmed roll number. -/
theorem findStudentUser_none (lib : Lib) (users : List User) (rn : String)
    (h : ∀ u ∈ users, ¬ (u.role = "student" ∧ u.rollNumber = some (jsTrim rn))) :
    findStudentUser lib users (some rn) = none := by
  unfold findStudentUser
  rw [List.find?_eq_none]
  intro u hu hp
  simp only [Lib.eqCond, Option.map_some', Bool.and_eq_true, beq_iff_eq] at hp
  exact h u hu ⟨hp.2, hp.1⟩

/-- The query `User.findOne(rollNumber, role: "student")` returns a user when
a student has the trimmed roll number. -/
theorem findStudentUser_exists (lib : Lib) (users : List User) (rn : String)
    (h : ∃ u ∈ users, u.role = "student" ∧ u.rollNumber = some (jsTrim rn)) :
    ∃ su, findStudentUser lib users (some rn) = some su := by
  cases hf : findStudentUser lib users (some rn) with
  | some su => exact ⟨su, rfl⟩
  | none =>
    obtain ⟨u, hu, hr, hn⟩ := h
    unfold findStudentUser at hf
    have := (List.find?_eq_none.mp hf) u hu
    simp [Lib.eqCond, hr, hn] at this

/-- The unique indexes accept a document whose `_id` and whose pair of roll
number and subject are both new. -/
theorem duplicateKey_false (marks : List MarkRecord) (doc : MarkRecord)
    (hid : ∀ m ∈ marks, m._id ≠ doc._id)
    (hpair : ∀ m ∈ marks, ¬ (m.rollNumber = doc.rollNumber ∧ m.subject = doc.subject)) :
    duplicateKey marks doc = false := by
  unfold duplicateKey
  rw [List.any_eq_false]
  intro m hm
  have h1 := hid m hm
  have h2 := hpair m hm
  simp only [Bool.or_eq_true, beq_iff_eq, Bool.and_eq_true, not_or]
  exact ⟨h1, h2⟩

/-- The compound unique index rejects a document whose pair of roll number
and subject is already stored. -/
theorem duplicateKey_true (marks : List MarkRecord) (doc m : MarkRecord) (hm : m ∈ marks)
    (hr : m.rollNumber = doc.rollNumber) (hs : m.subject = doc.subject) :
    duplicateKey marks doc = true := by
  unfold duplicateKey
  rw [List.any_eq_true]
  exact ⟨m, hm, by simp [hr, hs]⟩

/-- A create request answered 201 found a student, passed validation and the
unique indexes, and appended the validated document. -/
theorem postStudentMark_created (lib : Lib) (users : List User) (marks : List MarkRecord)
    (user : Claims) (newId : ObjectId) (body : MarkBody)
    (h : (postStudentMark lib users marks user newId body).1.status = 201) :
    ∃ su doc, findStudentUser lib users body.rollNumber = some su ∧
      validateStudent newId body.rollNumber su.fullName body.marks body.subject user.id =
        .ok doc ∧
      duplicateKey marks doc = false ∧
      postStudentMark lib users marks user newId body = (⟨201, .mark doc⟩, marks ++ [doc]) := by
  unfold postStudentMark at h ⊢
  cases hf : findStudentUser lib users body.rollNumber with
  | none => simp [hf] at h
  | some su =>
    cases hv : validateStudent newId body.rollNumber su.fullName body.marks body.subject
        user.id with
    | error e => simp [hf, hv] at h
    | ok doc =>
      cases hd : duplicateKey marks doc with
      | true => simp [hf, hv, hd] at h
      | false => exact ⟨su, doc, rfl, hv, hd, by simp [hv, hd]⟩

/-- The message sent on a duplicate key names the roll number and the subject
of the request. -/
theorem duplicateMessage_contains (R S : String) (sc : Option Int) :
    R.data <:+: (duplicateMessage ⟨some R, sc, some S⟩).data ∧
    S.data <:+: (duplicateMessage ⟨some R, sc, some S⟩).data := by
  constructor
  · have e : duplicateMessage ⟨some R, sc, some S⟩ =
        "Mark record already exists for Roll Number " ++ R ++
          (" in " ++ S ++ ". Please use Edit Mark to update.") := by
      simp only [duplicateMessage, render, Option.getD_some, String.append_assoc]
    rw [e, String.data_append, String.data_append]
    exact ⟨_, _, rfl⟩
  · simp only [duplicateMessage, render, Option.getD_some, String.data_append]
    exact ⟨_, _, rfl⟩

/-- A create request that names a student with a non-empty trimmed name,
carries a non-empty trimmed roll number, a non-empty subject and a score in
`[0, 100]`, and meets no stored `_id` or pair of roll number and subject, is
answered 201 and appends the new document. -/
theorem postStudentMark_valid (lib : Lib) (users : List User) (marks : List MarkRecord)
    (user : Claims) (newId : ObjectId) (rn : String) (score : Int) (subj : String) (su : User)
    (hfind : findStudentUser lib users (some rn) = some su)
    (hrn : jsTrim rn ≠ "") (hname : jsTrim su.fullName ≠ "") (hsubj : subj ≠ "")
    (hlo : 0 ≤ score) (hhi : score ≤ 100) (hfresh : ∀ m ∈ marks, m._id ≠ newId)
    (hpair : ∀ m ∈ marks, ¬ (m.rollNumber = jsTrim rn ∧ m.subject = subj)) :
    postStudentMark lib users marks user newId ⟨some rn, some score, some subj⟩ =
      (⟨201, .mark ⟨newId, jsTrim rn, jsTrim su.fullName, score, subj, some user.id⟩⟩,
        marks ++ [⟨newId, jsTrim rn, jsTrim su.fullName, score, subj, some user.id⟩]) := by
  have hv := validateStudent_valid newId rn su.fullName score subj user.id hrn hname hlo hhi hsubj
  have hd := duplicateKey_false marks
    ⟨newId, jsTrim rn, jsTrim su.fullName, score, subj, some user.id⟩ hfresh hpair
  simp [postStudentMark, hfind, hv, hd]

/-- C6 (as amended): for every caller of the teacher route and every create
request whose roll number, trimmed, is not empty and belongs to a user with
role student whose display name, trimmed, is not empty, whose score is in
`[0, 100]`, whose subject is not empty and whose pair of roll number and subject
(and generated `_id`) is not yet in the mark store, `POST /api/studentmarks`
answers 201 and appends exactly one record, whose `studentName` is that
student's trimmed display name and whose `teacherId` is the caller's id; when no
user with role student has the roll number it answers 404 and the store is
unchanged. -/
theorem create_mark_outcome (lib : Lib) (users : List User) (marks : List MarkRecord)
    (user : Claims) (newId : ObjectId) (rn : String) (score : Int) (subj : String) :
    (∀ student ∈ users, student.role = "student" →
      student.rollNumber = some (jsTrim rn) →
      (∀ u ∈ users, u.role = "student" → u.rollNumber = some (jsTrim rn) →
        u.fullName = student.fullName) →
      jsTrim rn ≠ "" → jsTrim student.fullName ≠ "" → subj ≠ "" →
      0 ≤ score → score ≤ 100 →
      (∀ m ∈ marks, m._id ≠ newId) →
      (∀ m ∈ marks, ¬ (m.rollNumber = jsTrim rn ∧ m.subject = subj)) →
      postStudentMark lib users marks user newId ⟨some rn, some score, some subj⟩ =
        (⟨201, .mark ⟨newId, jsTrim rn, jsTrim student.fullName, score, subj, some user.id⟩⟩,
          marks ++ [⟨newId, jsTrim rn, jsTrim student.fullName, score, subj, some user.id⟩])) ∧
    ((∀ u ∈ users, ¬ (u.role = "student" ∧ u.rollNumber = some (jsTrim rn))) →
      ∀ sc sb, postStudentMark lib users marks user newId ⟨some rn, sc, sb⟩ =
        (⟨404, .message "Student with this Roll Number does not exist."⟩, marks)) := by
  refine ⟨?_, ?_⟩
  · intro student hmem hrole hroll hsame hrn hname hsubj hlo hhi hfresh hpair
    obtain ⟨su, hfind⟩ := findStudentUser_exists lib users rn ⟨student, hmem, hrole, hroll⟩
    obtain ⟨hsu, hsr, hsn⟩ := findStudentUser_some lib users rn su hfind
    have hfn : su.fullName = student.fullName := hsame su hsu hsr hsn
    have := postStudentMark_valid lib users marks user newId rn score subj su hfind hrn
      (by rw [hfn]; exact hname) hsubj hlo hhi hfresh hpair
    rw [hfn] at this
    exact this
  · intro hnone sc sb
    simp [postStudentMark, findStudentUser_none lib users rn hnone]

/-- C6 (witness): Tina enters a Math mark of 85 for Asha (`R1`). -/
theorem create_mark_outcome_witness :
    postStudentMark demoLib demoUsers [] tina markId1 ⟨some "R1", some 85, some "Math"⟩ =
      (⟨201, .mark mathMark⟩, [mathMark]) :=
  ((create_mark_outcome demoLib demoUsers [] tina markId1 "R1" 85 "Math").1
    ⟨asha.id, "asha", "pw-asha", "student", "Asha", some "R1"⟩ (by decide) (by decide)
    (by decide) (by decide) (by decide) (by decide) (by decide) (by decide) (by decide)
    (by decide) (by decide)).trans (by decide)

/-- C6 (counterexample): Ravi is a user with role student and roll number
`R2` whose display name is the schema default, the empty string.  A create
request for `R2` with score 50 and subject Math, a pair not in the store, is
answered 400 and nothing is persisted.  So is a create request for Asha with an
empty subject, and one with an empty roll number for a student whose roll
number is the empty string. -/
theorem create_mark_unnamed_student :
    postStudentMark demoLib demoUsers [] tina markId1 ⟨some "R2", some 50, some "Math"⟩ =
      (⟨400, .message
        "Student validation failed: studentName: Path `studentName` is required."⟩, []) ∧
    postStudentMark demoLib demoUsers [] tina markId1 ⟨some "R1", some 50, some ""⟩ =
      (⟨400, .message
        "Student validation failed: subject: Path `subject` is required."⟩, []) ∧
    postStudentMark demoLib [⟨asha.id, "zed", "pw-zed", "student", "Zed", some ""⟩] [] tina
        markId1 ⟨some "", some 50, some "Math"⟩ =
      (⟨400, .message
        "Student validation failed: rollNumber: Path `rollNumber` is required."⟩, []) := by
  decide

/-- C5 (as amended): once a create request for the roll number `R` and the
subject `S` has been answered 201, every further create request for `R` and `S`
is answered 400 and leaves the store unchanged, and when its score is in
`[0, 100]` the message contains both `R` and `S`; a further create request for
`R` and a non-empty subject `S2` with a score in `[0, 100]` is answered 201
provided no stored record carries the pair `(R, S2)` or the generated `_id`. -/
theorem duplicate_mark_rejected (lib : Lib) (users : List User) (marks0 : List MarkRecord)
    (u1 : Claims) (id1 : ObjectId) (R S : String) (sc1 : Int)
    (hfirst :
      (postStudentMark lib users marks0 u1 id1 ⟨some R, some sc1, some S⟩).1.status = 201) :
    (∀ u2 id2 sc2,
      (postStudentMark lib users
          (postStudentMark lib users marks0 u1 id1 ⟨some R, some sc1, some S⟩).2
          u2 id2 ⟨some R, sc2, some S⟩).1.status = 400 ∧
      (postStudentMark lib users
          (postStudentMark lib users marks0 u1 id1 ⟨some R, some sc1, some S⟩).2
          u2 id2 ⟨some R, sc2, some S⟩).2 =
        (postStudentMark lib users marks0 u1 id1 ⟨some R, some sc1, some S⟩).2 ∧
      (∀ n, sc2 = some n → 0 ≤ n → n ≤ 100 →
        ∃ msg, (postStudentMark lib users
            (postStudentMark lib users marks0 u1 id1 ⟨some R, some sc1, some S⟩).2
            u2 id2 ⟨some R, sc2, some S⟩).1.body = .message msg ∧
          R.data <:+: msg.data ∧ S.data <:+: msg.data)) ∧
    (∀ u3 id3 S2 sc3, S2 ≠ "" → 0 ≤ sc3 → sc3 ≤ 100 →
      (∀ m ∈ (postStudentMark lib users marks0 u1 id1 ⟨some R, some sc1, some S⟩).2,
        m._id ≠ id3) →
      (∀ m ∈ (postStudentMark lib users marks0 u1 id1 ⟨some R, some sc1, some S⟩).2,
        ¬ (m.rollNumber = jsTrim R ∧ m.subject = S2)) →
      (postStudentMark lib users
          (postStudentMark lib users marks0 u1 id1 ⟨some R, some sc1, some S⟩).2
          u3 id3 ⟨some R, some sc3, some S2⟩).1.status = 201) := by
  obtain ⟨su, doc, hfind, hv, -, hpost⟩ := postStudentMark_created _ _ _ _ _ _ hfirst
  simp only at hfind hv
  obtain ⟨r, n, s, hr, hn, hs, hrne, hname, -, -, hsne, hdoc⟩ :=
    validateStudent_ok _ _ _ _ _ _ _ hv
  cases hr
  cases hs
  rw [hpost]
  simp only
  have hmem : doc ∈ marks0 ++ [doc] := by simp
  refine ⟨?_, ?_⟩
  · intro u2 id2 sc2
    have key : ∀ doc2, validateStudent id2 (some R) su.fullName sc2 (some S) u2.id = .ok doc2 →
        duplicateKey (marks0 ++ [doc]) doc2 = true := by
      intro doc2 h2
      obtain ⟨r2, n2, s2, hr2, -, hs2, -, -, -, -, -, hdoc2⟩ :=
        validateStudent_ok _ _ _ _ _ _ _ h2
      cases hr2
      cases hs2
      exact duplicateKey_true _ _ doc hmem (by rw [hdoc, hdoc2]) (by rw [hdoc, hdoc2])
    refine ⟨?_, ?_, ?_⟩
    · unfold postStudentMark
      simp only [hfind]
      cases h2 : validateStudent id2 (some R) su.fullName sc2 (some S) u2.id with
      | error e => rfl
      | ok doc2 => simp [key doc2 h2]
    · unfold postStudentMark
      simp only [hfind]
      cases h2 : validateStudent id2 (some R) su.fullName sc2 (some S) u2.id with
      | error e => rfl
      | ok doc2 => simp [key doc2 h2]
    · intro n2 hsc hlo hhi
      subst hsc
      have h2 := validateStudent_valid id2 R su.fullName n2 S u2.id hrne hname hlo hhi hsne
      refine ⟨duplicateMessage ⟨some R, some n2, some S⟩, ?_, duplicateMessage_contains R S _⟩
      unfold postStudentMark
      simp [hfind, h2, key _ h2]
  · intro u3 id3 S2 sc3 hS2 hlo hhi hfresh hpair
    rw [postStudentMark_valid lib users (marks0 ++ [doc]) u3 id3 R sc3 S2 su hfind hrne hname
      hS2 hlo hhi hfresh hpair]

/-- C5 (witness): Tina enters Asha's Math mark in the empty store; Tom's
create request for the same pair is refused, his request for Physics is not. -/
theorem duplicate_mark_rejected_witness :
    (postStudentMark demoLib demoUsers [mathMark] tom markId2
        ⟨some "R1", some 90, some "Math"⟩).1.status = 400 ∧
    (postStudentMark demoLib demoUsers [mathMark] tom markId2
        ⟨some "R1", some 70, some "Physics"⟩).1.status = 201 :=
  have h := duplicate_mark_rejected demoLib demoUsers [] tina markId1 "R1" "Math" 85
    (by decide)
  ⟨(h.1 tom markId2 (some 90)).1,
    h.2 tom markId2 "Physics" 70 (by decide) (by decide) (by decide) (by decide) (by decide)⟩

set_option maxRecDepth 8000 in
/-- C5 (counterexample): after Asha's Math mark has been created, a second
create request for the same pair with score 150 is answered with the validation
message, which names neither `R1` nor `Math`; and in a store that already holds
Asha's Physics mark, the create request for Physics that follows the creation
of her Math mark is answered 400, as is one whose second subject is empty. -/
theorem duplicate_mark_counterexample :
    postStudentMark demoLib demoUsers [mathMark] tom markId2
        ⟨some "R1", some 150, some "Math"⟩ =
      (⟨400, .message ("Student validation failed: marks: Path `marks` (150) is more than " ++
        "maximum allowed value (100).")⟩, [mathMark]) ∧
    ¬ ("R1".data <:+: ("Student validation failed: marks: Path `marks` (150) is more than " ++
        "maximum allowed value (100).").data) ∧
    ¬ ("Math".data <:+: ("Student validation failed: marks: Path `marks` (150) is more than " ++
        "maximum allowed value (100).").data) ∧
    postStudentMark demoLib demoUsers [physicsMark] tina markId1
        ⟨some "R1", some 85, some "Math"⟩ =
      (⟨201, .mark mathMark⟩, [physicsMark, mathMark]) ∧
    (postStudentMark demoLib demoUsers [physicsMark, mathMark] tina
        ⟨"0000000000000000000000c3"⟩ ⟨some "R1", some 60, some "Physics"⟩).1.status = 400 ∧
    (postStudentMark demoLib demoUsers [mathMark] tina markId2
        ⟨some "R1", some 60, some ""⟩).1.status = 400 := by
  decide

/-! ### C11: create a user, then log in -/

/-- The validators of a new user find nothing exactly when the trimmed user
name and the hash are not empty and the role is one of the three roles. -/
theorem userValidationErrors_eq_nil (u hashed r : String) :
    userValidationErrors (some u) hashed (some r) = [] ↔
      jsTrim u ≠ "" ∧ hashed ≠ "" ∧ (r = "admin" ∨ r = "teacher" ∨ r = "student") := by
  unfold userValidationErrors requiredUserString validateRole
  by_cases h1 : jsTrim u = "" <;> by_cases h2 : hashed = "" <;>
    by_cases h3 : r = "admin" ∨ r = "teacher" ∨ r = "student" <;>
    by_cases h4 : r = "" <;> simp [h1, h2, h3, h4]

/-- The unique indexes of the user collection accept a document whose `_id`,
user name and roll number (if it has one) are all new. -/
theorem userDuplicateKey_false (users : List User) (doc : User)
    (hid : ∀ x ∈ users, x._id ≠ doc._id) (hname : ∀ x ∈ users, x.username ≠ doc.username)
    (hroll : ∀ r, doc.rollNumber = some r → ∀ x ∈ users, x.rollNumber ≠ some r) :
    userDuplicateKey users doc = false := by
  unfold userDuplicateKey
  rw [List.any_eq_false]
  intro x hx
  have h1 := hid x hx
  have h2 := hname x hx
  cases hr : doc.rollNumber with
  | none => simp [h1, h2]
  | some r =>
    have h3 := hroll r hr x hx
    simp [h1, h2, h3]

/-- The pre-check on the roll number finds nothing when no user carries the
trimmed roll number. -/
theorem rollNumberTaken_false (lib : Lib) (users : List User) (rollNumber : Option String)
    (hroll : ∀ r, rollNumber = some r → ∀ x ∈ users, x.rollNumber ≠ some (jsTrim r)) :
    rollNumberTaken lib users rollNumber = false := by
  unfold rollNumberTaken
  cases rollNumber with
  | none => rfl
  | some r =>
    simp only
    split
    · rfl
    · have hf : findByRollNumber lib users r = none := by
        unfold findByRollNumber
        rw [List.find?_eq_none]
        intro x hx
        simpa [Lib.eqCond] using hroll r rfl x hx
      rw [hf]
      rfl

/-- The lookup `User.findOne(username)` in a collection to which a user with
a new name was appended finds that user under its name. -/
theorem findByUsername_appended (lib : Lib) (users : List User) (name : String) (doc : User)
    (hnew : ∀ x ∈ users, x.username ≠ jsTrim name) (hdoc : doc.username = jsTrim name) :
    findByUsername lib (users ++ [doc]) (some name) = some doc := by
  have hnone := findByUsername_none lib users name hnew
  unfold findByUsername at hnone ⊢
  rw [List.find?_append, hnone]
  simp [Lib.eqCond, hdoc]

/-- C11 (as amended): for every user name that is non-empty after trimming and
not already present, every password and every role among admin, teacher and
student, with no colliding roll number (and a new `_id`), `POST /api/users`
answers 201 with the new user's id, user name and role, a body that has no
field for the password hash, and stores the user; `POST /api/auth/login` with
the same user name and password then answers 200 with a token and the role
given at creation.  It is assumed that `bcrypt.hash` returns a non-empty hash
and that `bcrypt.compare` accepts the password against that hash. -/
theorem create_then_login (lib : Lib) (ulib : UserLib) (users : List User) (newId : ObjectId)
    (username pw role : String) (fullName rollNumber : Option String) (h : String)
    (hname : jsTrim username ≠ "")
    (hnew : ∀ x ∈ users, x.username ≠ jsTrim username)
    (hrole : role = "admin" ∨ role = "teacher" ∨ role = "student")
    (hroll : ∀ r, rollNumber = some r → ∀ x ∈ users, x.rollNumber ≠ some (jsTrim r))
    (hid : ∀ x ∈ users, x._id ≠ newId)
    (hhash : ulib.bcryptHash (some pw) = .ok h) (hne : h ≠ "")
    (hcmp : lib.bcryptCompare (some pw) h = some true) :
    postUser lib ulib users newId ⟨some username, some pw, some role, fullName, rollNumber⟩ =
      (⟨201, .created "User created successfully" newId (jsTrim username) role⟩,
        users ++ [⟨newId, jsTrim username, h, role, jsTrim (fullName.getD ""),
          rollNumber.map jsTrim⟩]) ∧
    login lib
        (postUser lib ulib users newId
          ⟨some username, some pw, some role, fullName, rollNumber⟩).2
        ⟨some username, some pw⟩ =
      ⟨200, .session
        (lib.jwtSign ⟨newId, role, jsTrim username, jsTrim (fullName.getD ""),
          rollNumber.map jsTrim⟩)
        role (jsTrim username) (jsTrim (fullName.getD "")) (rollNumber.map jsTrim)⟩ := by
  have hpost : postUser lib ulib users newId
      ⟨some username, some pw, some role, fullName, rollNumber⟩ =
      (⟨201, .created "User created successfully" newId (jsTrim username) role⟩,
        users ++ [⟨newId, jsTrim username, h, role, jsTrim (fullName.getD ""),
          rollNumber.map jsTrim⟩]) := by
    have hv : validateUser newId (some username) h (some role) fullName rollNumber =
        .ok ⟨newId, jsTrim username, h, role, jsTrim (fullName.getD ""),
          rollNumber.map jsTrim⟩ := by
      have he := (userValidationErrors_eq_nil username h role).mpr ⟨hname, hne, hrole⟩
      simp only [validateUser, he, if_true]
    have hd : userDuplicateKey users ⟨newId, jsTrim username, h, role,
        jsTrim (fullName.getD ""), rollNumber.map jsTrim⟩ = false := by
      apply userDuplicateKey_false _ _ hid hnew
      intro r hr x hx
      cases rollNumber with
      | none => cases hr
      | some r0 =>
        simp only [Option.map_some', Option.some.injEq] at hr
        rw [← hr]
        exact hroll r0 rfl x hx
    simp [postUser, findByUsername_none lib users username hnew,
      rollNumberTaken_false lib users rollNumber hroll, hhash, hv, hd]
  refine ⟨hpost, ?_⟩
  rw [hpost]
  have hfind := findByUsername_appended lib users username
    ⟨newId, jsTrim username, h, role, jsTrim (fullName.getD ""), rollNumber.map jsTrim⟩
    hnew rfl
  simp only [login, hfind, hcmp]

/-- C11 (witness): Root creates the teacher Maya, who then logs in. -/
theorem create_then_login_witness :
    postUser demoLib demoUserLib staffUsers ⟨"0000000000000000000000e1"⟩
        ⟨some "maya", some "secret1", some "teacher", some "Maya", none⟩ =
      (⟨201, .created "User created successfully" ⟨"0000000000000000000000e1"⟩ "maya"
        "teacher"⟩,
        staffUsers ++ [⟨⟨"0000000000000000000000e1"⟩, "maya", "secret1", "teacher", "Maya",
          none⟩]) ∧
    login demoLib
        (postUser demoLib demoUserLib staffUsers ⟨"0000000000000000000000e1"⟩
          ⟨some "maya", some "secret1", some "teacher", some "Maya", none⟩).2
        ⟨some "maya", some "secret1"⟩ =
      ⟨200, .session "jwt:maya" "teacher" "maya" "Maya" none⟩ :=
  create_then_login demoLib demoUserLib staffUsers ⟨"0000000000000000000000e1"⟩ "maya"
    "secret1" "teacher" (some "Maya") none "secret1" (by decide) (by decide) (by decide)
    (by intro r hr; cases hr) (by decide) rfl (by decide) (by decide)

/-- C11 (counterexample): the empty user name is not present among the sample
users, yet creating a teacher with it is answered 400 by the validator of
`username` and stores nothing, and the login that follows fails. -/
theorem create_user_empty_name :
    postUser demoLib demoUserLib staffUsers ⟨"0000000000000000000000e1"⟩
        ⟨some "", some "secret1", some "teacher", none, none⟩ =
      (⟨400, .message "User validation failed: username: Path `username` is required."⟩,
        staffUsers) ∧
    login demoLib staffUsers ⟨some "", some "secret1"⟩ =
      ⟨400, .message "Invalid credentials"⟩ := by
  decide

/-! ### C12: `DELETE /api/users/:id` -/

/-- The lookup `User.findById` finds a user with the id when there is one,
and only then. -/
theorem findUserById_some (users : List User) (oid : ObjectId)
    (h : ∃ u ∈ users, u._id = oid) :
    ∃ u, users.find? (fun u => u._id == oid) = some u ∧ u ∈ users ∧ u._id = oid := by
  cases hf : users.find? (fun u => u._id == oid) with
  | none =>
    obtain ⟨u, hu, hid⟩ := h
    have := (List.find?_eq_none.mp hf) u hu
    simp [hid] at this
  | some u =>
    refine ⟨u, rfl, List.mem_of_find?_eq_some hf, ?_⟩
    simpa using List.find?_some hf

/-- Deleting by id removes exactly one document, the first with that id. -/
theorem deleteUserById_split (users : List User) (oid : ObjectId)
    (h : ∃ u ∈ users, u._id = oid) :
    ∃ pre u post, users = pre ++ u :: post ∧ u._id = oid ∧ (∀ x ∈ pre, x._id ≠ oid) ∧
      deleteUserById oid users = pre ++ post := by
  induction users with
  | nil =>
    obtain ⟨u, hu, -⟩ := h
    cases hu
  | cons a l ih =>
    by_cases ha : a._id = oid
    · exact ⟨[], a, l, rfl, ha, by simp, by simp [deleteUserById, ha]⟩
    · have hl : ∃ u ∈ l, u._id = oid := by
        obtain ⟨u, hu, hid⟩ := h
        rcases List.mem_cons.mp hu with hu | hu
        · subst hu; exact absurd hid ha
        · exact ⟨u, hu, hid⟩
      obtain ⟨pre, u, post, hsplit, hid, hpre, hdel⟩ := ih hl
      refine ⟨a :: pre, u, post, by rw [hsplit]; rfl, hid, ?_, by simp [deleteUserById, ha, hdel]⟩
      intro x hx
      rcases List.mem_cons.mp hx with hx | hx
      · subst hx; exact ha
      · exact hpre x hx

/-- What the delete handler does by design: 403 when the path parameter is
the token's id string; otherwise, for a parameter that casts to an ObjectId, 404
when no user has that id and removal of exactly the first user with that id
when one has. -/
theorem deleteUser_guarded (lib : Lib) (users : List User) (user : Claims) (id : String) :
    (id = user.id.hex →
      deleteUser lib users user id = (⟨403, .message "Cannot delete yourself."⟩, users)) ∧
    (∀ oid, id ≠ user.id.hex → lib.castObjectId id = some oid →
      ((∀ u ∈ users, u._id ≠ oid) →
        deleteUser lib users user id = (⟨404, .message "User not found."⟩, users)) ∧
      ((∃ u ∈ users, u._id = oid) →
        (deleteUser lib users user id).1 = ⟨200, .message "User deleted successfully."⟩ ∧
        ∃ pre u post, users = pre ++ u :: post ∧ u._id = oid ∧ (∀ x ∈ pre, x._id ≠ oid) ∧
          (deleteUser lib users user id).2 = pre ++ post)) := by
  refine ⟨?_, ?_⟩
  · intro h
    simp [deleteUser, h]
  · intro oid hne hcast
    have hne2 : ¬ user.id.hex = id := fun e => hne e.symm
    refine ⟨?_, ?_⟩
    · intro hnone
      have hf : users.find? (fun u => u._id == oid) = none := by
        rw [List.find?_eq_none]
        intro u hu
        simpa using hnone u hu
      simp [deleteUser, hne2, hcast, hf]
    · intro hex
      obtain ⟨u, hf, -, -⟩ := findUserById_some users oid hex
      have hres : deleteUser lib users user id =
          (⟨200, .message "User deleted successfully."⟩, deleteUserById oid users) := by
        simp [deleteUser, hne2, hcast, hf]
      rw [hres]
      exact ⟨rfl, deleteUserById_split users oid hex⟩

/-- C12 (failing input): whenever the path parameter is another spelling of
the caller's own id (a string other than the token's id string that the cast
maps to the caller's ObjectId, such as the same hex digits in upper case) and
the caller's user document is stored, `DELETE /api/users/:id` answers 200 and
removes the caller's own document instead of answering 403. -/
theorem self_delete_by_other_spelling (lib : Lib) (users : List User) (user : Claims)
    (id : String) (hne : id ≠ user.id.hex) (hcast : lib.castObjectId id = some user.id)
    (hme : ∃ u ∈ users, u._id = user.id) :
    (deleteUser lib users user id).1 = ⟨200, .message "User deleted successfully."⟩ ∧
    ∃ pre me post, users = pre ++ me :: post ∧ me._id = user.id ∧
      (∀ x ∈ pre, x._id ≠ user.id) ∧ (deleteUser lib users user id).2 = pre ++ post :=
  ((deleteUser_guarded lib users user id).2 user.id hne hcast).2 hme

/-- C12 (witness): Root, whose id ends in `ad`, sends the delete request with
the id spelled `AD`; Root's document is removed. -/
theorem self_delete_by_other_spelling_witness :
    deleteUser hexLib staffUsers root "0000000000000000000000ad" =
      (⟨403, .message "Cannot delete yourself."⟩, staffUsers) ∧
    deleteUser hexLib staffUsers root "0000000000000000000000AD" =
      (⟨200, .message "User deleted successfully."⟩, demoUsers) ∧
    (deleteUser hexLib staffUsers root "0000000000000000000000AD").1 =
      ⟨200, .message "User deleted successfully."⟩ :=
  ⟨by decide, by decide,
    (self_delete_by_other_spelling hexLib staffUsers root "0000000000000000000000AD"
      (by decide) (by decide) ⟨_, List.mem_cons_self _ _, rfl⟩).1⟩

/-! ### C13: `PUT /api/users/password/:id` -/

/-- The empty string has length 0. -/
theorem jsLength_empty : jsLength "" = 0 := rfl

/-- Setting the password by id rewrites exactly one document, the first with
that id, and only its `password`. -/
theorem setPasswordById_split (users : List User) (oid : ObjectId) (hashed : String)
    (h : ∃ u ∈ users, u._id = oid) :
    ∃ pre u post, users = pre ++ u :: post ∧ u._id = oid ∧ (∀ x ∈ pre, x._id ≠ oid) ∧
      setPasswordById oid hashed users = pre ++ { u with password := hashed } :: post := by
  induction users with
  | nil =>
    obtain ⟨u, hu, -⟩ := h
    cases hu
  | cons a l ih =>
    by_cases ha : a._id = oid
    · exact ⟨[], a, l, rfl, ha, by simp, by simp [setPasswordById, ha]⟩
    · have hl : ∃ u ∈ l, u._id = oid := by
        obtain ⟨u, hu, hid⟩ := h
        rcases List.mem_cons.mp hu with hu | hu
        · subst hu; exact absurd hid ha
        · exact ⟨u, hu, hid⟩
      obtain ⟨pre, u, post, hsplit, hid, hpre, hset⟩ := ih hl
      refine ⟨a :: pre, u, post, by rw [hsplit]; rfl, hid, ?_,
        by simp [setPasswordById, ha, hset]⟩
      intro x hx
      rcases List.mem_cons.mp hx with hx | hx
      · subst hx; exact ha
      · exact hpre x hx

/-- C13: for every caller of the admin route, every path parameter and every
body, `PUT /api/users/password/:id` answers 400 and leaves the user collection
unchanged whenever `newPassword` is missing or has length (in UTF-16 code
units) less than 6; and for every `newPassword` of length at least 6 and
every path parameter that is the id of a stored user it answers 200 and
replaces the `password` of that user (the first document with the id) by the
hash `bcrypt.hash` returns, changing no other field and no other document. -/
theorem password_reset_outcome (lib : Lib) (ulib : UserLib) (users : List User)
    (id : String) :
    (∀ np, (np = none ∨ ∃ p, np = some p ∧ jsLength p < 6) →
      putUserPassword lib ulib users id np =
        (⟨400, .message "Password must be at least 6 characters long."⟩, users)) ∧
    (∀ p h oid, 6 ≤ jsLength p → ulib.bcryptHash (some p) = .ok h →
      lib.castObjectId id = some oid → (∃ u ∈ users, u._id = oid) →
      (putUserPassword lib ulib users id (some p)).1 =
        ⟨200, .message "Password updated successfully."⟩ ∧
      ∃ pre u post, users = pre ++ u :: post ∧ u._id = oid ∧ (∀ x ∈ pre, x._id ≠ oid) ∧
        (putUserPassword lib ulib users id (some p)).2 =
          pre ++ { u with password := h } :: post) := by
  refine ⟨?_, ?_⟩
  · rintro np (h | ⟨p, h, hlen⟩)
    · subst h; rfl
    · subst h
      simp [putUserPassword, hlen]
  · intro p h oid hlen hhash hcast hex
    have hguard : ¬ (p = "" ∨ jsLength p < 6) := by
      rintro (h0 | h0)
      · rw [h0, jsLength_empty] at hlen
        omega
      · omega
    obtain ⟨u, hf, -, -⟩ := findUserById_some users oid hex
    have hres : putUserPassword lib ulib users id (some p) =
        (⟨200, .message "Password updated successfully."⟩, setPasswordById oid h users) := by
      simp only [putUserPassword]
      rw [if_neg hguard]
      simp only [hhash, hcast, hf]
    rw [hres]
    exact ⟨rfl, setPasswordById_split users oid h hex⟩

/-- C13 (witness): a reset of Tina's password to five letters is refused, a
reset to seven letters is stored, and only Tina's password changes. -/
theorem password_reset_outcome_witness :
    putUserPassword demoLib demoUserLib staffUsers "0000000000000000000000a1" (some "abcde") =
      (⟨400, .message "Password must be at least 6 characters long."⟩, staffUsers) ∧
    (putUserPassword demoLib demoUserLib staffUsers "0000000000000000000000a1"
        (some "secret7")).1 = ⟨200, .message "Password updated successfully."⟩ :=
  ⟨(password_reset_outcome demoLib demoUserLib staffUsers "0000000000000000000000a1").1
      (some "abcde") (Or.inr ⟨"abcde", rfl, by decide⟩),
    ((password_reset_outcome demoLib demoUserLib staffUsers "0000000000000000000000a1").2
      "secret7" "secret7" tina.id (by decide) rfl (by decide)
      ⟨⟨tina.id, "tina", "pw-tina", "teacher", "Tina", none⟩, by decide, rfl⟩).1⟩

/-! ### C14: resolving a complaint -/

/-- Setting the status of a resolved complaint to "Resolved" changes nothing. -/
theorem resolved_fixed (c : Complaint) (h : c.status = "Resolved") :
    { c with status := "Resolved" } = c := by
  cases c
  simp only at h
  rw [h]

/-- The lookup `Complaint.findById` finds the stored complaint with the id
when ids are unique. -/
theorem findComplaintById (complaints : List Complaint) (c : Complaint)
    (hmem : c ∈ complaints) (huniq : ∀ x ∈ complaints, x._id = c._id → x = c) :
    complaints.find? (fun x => x._id == c._id) = some c := by
  cases hf : complaints.find? (fun x => x._id == c._id) with
  | none =>
    have := (List.find?_eq_none.mp hf) c hmem
    simp at this
  | some x =>
    have hx : x ∈ complaints := List.mem_of_find?_eq_some hf
    have hid : x._id = c._id := by simpa using List.find?_some hf
    rw [huniq x hx hid]

/-- Saving a loaded complaint rewrites exactly one document, the one that was
loaded. -/
theorem saveComplaint_split (complaints : List Complaint) (c new : Complaint)
    (hid : new._id = c._id)
    (hf : complaints.find? (fun x => x._id == c._id) = some c) :
    ∃ pre post, complaints = pre ++ c :: post ∧ (∀ x ∈ pre, x._id ≠ c._id) ∧
      saveComplaint new complaints = pre ++ new :: post := by
  induction complaints with
  | nil => cases hf
  | cons a l ih =>
    by_cases ha : a._id = c._id
    · have hac : a = c := by
        simp only [List.find?, ha, beq_self_eq_true] at hf
        exact Option.some.inj hf
      subst hac
      exact ⟨[], l, rfl, by simp, by simp [saveComplaint, hid]⟩
    · have hf2 : l.find? (fun x => x._id == c._id) = some c := by
        have hb : (a._id == c._id) = false := by simpa using ha
        simpa only [List.find?, hb] using hf
      obtain ⟨pre, post, hsplit, hpre, hsave⟩ := ih hf2
      refine ⟨a :: pre, post, by rw [hsplit]; rfl, ?_, ?_⟩
      · intro x hx
        rcases List.mem_cons.mp hx with hx | hx
        · subst hx; exact ha
        · exact hpre x hx
      · have ha2 : ¬ a._id = new._id := by rw [hid]; exact ha
        simp [saveComplaint, ha2, hsave]

/-- Saving the resolved form of the complaint found under an id keeps every
resolved complaint of the collection. -/
theorem saveComplaint_keeps_resolved (complaints : List Complaint) (oid : ObjectId)
    (c x : Complaint) (hf : complaints.find? (fun y => y._id == oid) = some c)
    (hx : x ∈ complaints) (hres : x.status = "Resolved") :
    x ∈ saveComplaint { c with status := "Resolved" } complaints := by
  induction complaints with
  | nil => cases hx
  | cons a l ih =>
    by_cases ha : a._id = oid
    · have hac : a = c := by
        simp only [List.find?, ha, beq_self_eq_true] at hf
        exact Option.some.inj hf
      subst hac
      rcases List.mem_cons.mp hx with hx | hx
      · subst hx
        rw [resolved_fixed x hres]
        simp [saveComplaint]
      · simp [saveComplaint, hx]
    · have hb : (a._id == oid) = false := by simpa using ha
      have hf2 : l.find? (fun y => y._id == oid) = some c := by
        simpa only [List.find?, hb] using hf
      have hcid : c._id = oid := by simpa using List.find?_some hf2
      have ha2 : ¬ a._id = ({ c with status := "Resolved" } : Complaint)._id := by
        show ¬ a._id = c._id
        rw [hcid]; exact ha
      rcases List.mem_cons.mp hx with hx | hx
      · subst hx
        simp [saveComplaint, ha2]
      · have := ih hf2 hx
        simp [saveComplaint, ha2, this]

/-- Creating a complaint keeps every stored complaint. -/
theorem postComplaint_keeps (users : List User) (complaints : List Complaint)
    (user : Claims) (newId : ObjectId) (now : Nat) (message : Option String) (x : Complaint)
    (hx : x ∈ complaints) :
    x ∈ (postComplaint users complaints user newId now message).2 := by
  unfold postComplaint
  cases users.find? (fun u => u._id == user.id) with
  | none => exact hx
  | some u =>
    cases message with
    | none => exact hx
    | some m =>
      dsimp only
      split_ifs
      all_goals first | exact hx | exact List.mem_append_left _ hx

/-- Resolving a complaint keeps every resolved complaint as it is. -/
theorem putComplaint_keeps_resolved (lib : Lib) (complaints : List Complaint) (id : String)
    (x : Complaint) (hx : x ∈ complaints) (hres : x.status = "Resolved") :
    x ∈ (putComplaint lib complaints id).2 := by
  unfold putComplaint
  cases lib.castObjectId id with
  | none => exact hx
  | some oid =>
    dsimp only
    cases hf : complaints.find? (fun c => c._id == oid) with
    | none => exact hx
    | some c =>
      dsimp only
      split_ifs
      · exact saveComplaint_keeps_resolved complaints oid c x hf hx hres
      · exact hx

/-- No request to a complaint route removes or alters a resolved complaint. -/
theorem handleComplaintRequest_keeps_resolved (lib : Lib) (users : List User)
    (complaints : List Complaint) (r : ComplaintRequest) (x : Complaint)
    (hx : x ∈ complaints) (hres : x.status = "Resolved") :
    x ∈ (handleComplaintRequest lib users complaints r).2 := by
  cases r with
  | create a newId now message =>
    simp only [handleComplaintRequest]
    cases authMiddleware lib (.one "student") a with
    | respond st msg => exact hx
    | next user => exact postComplaint_keeps users complaints user newId now message x hx
  | list a =>
    simp only [handleComplaintRequest]
    cases authMiddleware lib (.many ["admin", "teacher", "student"]) a with
    | respond st msg => exact hx
    | next user => exact hx
  | resolve a id =>
    simp only [handleComplaintRequest]
    cases authMiddleware lib (.many ["teacher", "admin"]) a with
    | respond st msg => exact hx
    | next user => exact putComplaint_keeps_resolved lib complaints id x hx hres

/-- The router's declaration of the resolve route writes what the server's
route writes. -/
theorem routerPutComplaint_store (lib : Lib) (complaints : List Complaint) (id : String) :
    (routerPutComplaint lib complaints id).2 = (putComplaint lib complaints id).2 := by
  unfold routerPutComplaint putComplaint
  cases lib.castObjectId id with
  | none => rfl
  | some oid =>
    dsimp only
    cases complaints.find? (fun c => c._id == oid) with
    | none => rfl
    | some c => rfl

/-- C14: for every stored complaint (its message is not empty, as the schema
requires, and no other stored complaint has its id), `PUT /api/complaints/:id`
with its id answers 200 and rewrites exactly that complaint, with status
"Resolved" and every other field as it was; the same request sent again is
answered with the same 200 response and leaves the collection as the first
request left it; and through every sequence of requests to the complaint routes
a complaint that is resolved stays in the collection as it is, so its status
never returns to "Submitted". -/
theorem resolve_complaint_idempotent (lib : Lib) (users : List User)
    (complaints : List Complaint) (id : String) (c : Complaint)
    (hcast : lib.castObjectId id = some c._id) (hmem : c ∈ complaints)
    (huniq : ∀ x ∈ complaints, x._id = c._id → x = c) (hmsg : c.message ≠ "") :
    (putComplaint lib complaints id).1 = ⟨200, .complaint { c with status := "Resolved" }⟩ ∧
    (∃ pre post, complaints = pre ++ c :: post ∧ (∀ x ∈ pre, x._id ≠ c._id) ∧
      (putComplaint lib complaints id).2 = pre ++ { c with status := "Resolved" } :: post) ∧
    putComplaint lib (putComplaint lib complaints id).2 id =
      putComplaint lib complaints id ∧
    (∀ store rs x, x ∈ store → x.status = "Resolved" →
      x ∈ runComplaintRequests lib users store rs) := by
  have hf := findComplaintById complaints c hmem huniq
  have hvalid : complaintValid { c with status := "Resolved" } = true := by
    simp [complaintValid, hmsg]
  have hput : putComplaint lib complaints id =
      (⟨200, .complaint { c with status := "Resolved" }⟩,
        saveComplaint { c with status := "Resolved" } complaints) := by
    simp only [putComplaint, hcast, hf, hvalid, if_true]
  obtain ⟨pre, post, hsplit, hpre, hsave⟩ :=
    saveComplaint_split complaints c { c with status := "Resolved" } rfl hf
  refine ⟨by rw [hput], ⟨pre, post, hsplit, hpre, by rw [hput]; exact hsave⟩, ?_, ?_⟩
  · rw [hput]
    simp only
    rw [hsave]
    have hf2 : (pre ++ { c with status := "Resolved" } :: post).find?
        (fun x => x._id == c._id) = some { c with status := "Resolved" } := by
      rw [List.find?_append]
      have hnone : pre.find? (fun x => x._id == c._id) = none := by
        rw [List.find?_eq_none]
        intro x hx
        simpa using hpre x hx
      rw [hnone]
      simp [List.find?]
    have hsave2 : saveComplaint { c with status := "Resolved" }
        (pre ++ { c with status := "Resolved" } :: post) =
        pre ++ { c with status := "Resolved" } :: post := by
      clear hsplit hsave hf2
      induction pre with
      | nil => simp [saveComplaint]
      | cons a l ih =>
        have ha : ¬ a._id = ({ c with status := "Resolved" } : Complaint)._id :=
          hpre a (List.mem_cons_self _ _)
        have := ih (fun x hx => hpre x (List.mem_cons_of_mem _ hx))
        simp [saveComplaint, ha, this]
    simp only [putComplaint, hcast, hf2, hvalid, if_true, hsave2]
  · intro store rs
    induction rs generalizing store with
    | nil => intro x hx _; exact hx
    | cons r rs ih =>
      intro x hx hres
      exact ih _ x (handleComplaintRequest_keeps_resolved lib users store r x hx hres) hres

/-- C14 (witness): Asha's complaint is resolved, then resolved again. -/
theorem resolve_complaint_idempotent_witness :
    (putComplaint demoLib [ashaComplaint] "0000000000000000000000d1").1 =
      ⟨200, .complaint { ashaComplaint with status := "Resolved" }⟩ ∧
    putComplaint demoLib (putComplaint demoLib [ashaComplaint] "0000000000000000000000d1").2
        "0000000000000000000000d1" =
      putComplaint demoLib [ashaComplaint] "0000000000000000000000d1" :=
  have h := resolve_complaint_idempotent demoLib demoUsers [ashaComplaint]
    "0000000000000000000000d1" ashaComplaint (by decide) (by decide)
    (by intro x hx _; simpa using hx) (by decide)
  ⟨h.1, h.2.2.1⟩

end MarkTracker
